import Mathlib

/-!
# Verification of the vxxx-lexiq term-decision core

Shallow embedding of the repository's Python term-decision pipeline:

* `ConsistencyCheckService` (consistency_check_service.py): data model,
  the individual check functions, statistics aggregation, and the
  content-fingerprint cache around `check_consistency`.
* `EnhancedLexiQEngine` (enhanced_lexiq_engine.py): three-tier fallback
  validator (`validate_term`, tiers 1-3, semantic inference).
* `HotMatchService` (hot_match_service.py): percentage cache recompute
  and lookup.
* `HotMatchDetector` (hot_match_detector.py): interchangeable-term
  detection against static per-domain pattern tables.

Modelling conventions:
* Python `float` is embedded as `ℚ`; all constants in play (0.8, 0.3, …)
  are exact decimals, and the claims under study concern exact rational
  arithmetic, ordering against such thresholds, and structural equality.
* Python strings are Lean `String`s; `str.lower()` is `String.toLower`
  (character-wise ASCII lowering, which agrees with Python on the ASCII
  inputs all tables and claims use).
* `re.finditer` of an escaped literal (the only pattern form reaching the
  glossary check) is embedded as a left-to-right non-overlapping literal
  scan; case-insensitive matching lowers both pattern and subject.
* `uuid.uuid4()` issue ids are embedded as a fresh-id counter threaded
  through the service state: ids are opaque unique tokens and no claim
  depends on their concrete values.
* `hashlib.md5` cache fingerprints are embedded as the fingerprinted
  content string itself (an injective fingerprint); the claims about the
  cache depend only on the key being a deterministic function of that
  content.
* The external selection store and Redis cache (declared external
  collaborators in the spec) are passed in as explicit values: the store's
  response for a group is a list of selection records, a cache is an
  association list.
* Arbitrary user-supplied regular expressions (custom rules) are matched
  by the external `re` engine; it is passed in as an explicit matcher
  function parameter.
-/

/-! ## String helpers -/

/-- Non-overlapping left-to-right occurrence positions of the literal
`pat` in a character list, the semantics of Python
`re.finditer(re.escape(pat), txt)` (an empty pattern matches at every
position including the end; after a match the scanner resumes after the
matched text, implemented here by a `skip` countdown). -/
def occPositionsAux (pat : List Char) : List Char → Nat → Nat → List Nat
  | [], i, skip => if pat = [] ∧ skip = 0 then [i] else []
  | c :: rest, i, skip =>
    if skip ≠ 0 then occPositionsAux pat rest (i + 1) (skip - 1)
    else if pat = [] then i :: occPositionsAux pat rest (i + 1) 0
    else if pat.isPrefixOf (c :: rest) then
      i :: occPositionsAux pat rest (i + 1) (pat.length - 1)
    else occPositionsAux pat rest (i + 1) 0

/-- Occurrence positions of literal `pat` in `txt` (case-sensitive). -/
def occPositions (pat txt : String) : List Nat :=
  occPositionsAux pat.toList txt.toList 0 0

/-- Number of non-overlapping occurrences of `pat` in `txt`. -/
def occCount (pat txt : String) : Nat :=
  (occPositions pat txt).length

/-- Python `str.lower()` (character-wise ASCII lowering, as in the
character data the repository's tables and claims use). -/
def strLower (s : String) : String :=
  String.mk (s.toList.map Char.toLower)

/-- Python `str.strip()`: remove leading and trailing whitespace. -/
def strTrim (s : String) : String :=
  String.mk
    (((s.toList.dropWhile Char.isWhitespace).reverse.dropWhile
      Char.isWhitespace).reverse)

/-- Python `len(s)` (number of characters). -/
def strLen (s : String) : Nat :=
  s.toList.length

/-- Case-insensitive occurrence positions: lower both sides
(`re.IGNORECASE` on an escaped ASCII literal). -/
def occPositionsCI (pat txt : String) : List Nat :=
  occPositions (strLower pat) (strLower txt)

/-- Case-insensitive occurrence count. -/
def occCountCI (pat txt : String) : Nat :=
  (occPositionsCI pat txt).length

/-- Python slice `s[a:b]` on a string. -/
def strSlice (s : String) (a b : Nat) : String :=
  String.mk ((s.toList.drop a).take (b - a))

/-- Python truthiness-respecting `s[:n]`. -/
def strTake (s : String) (n : Nat) : String :=
  String.mk (s.toList.take n)

/-- Python `needle in hay` substring test (an empty needle is contained
in everything, matching Python). -/
def strContains (needle hay : String) : Bool :=
  occCount needle hay ≠ 0

/-- First (leftmost) position of `needle` in `hay`, Python `str.find`
returning `none` for -1. -/
def strFind (needle hay : String) : Option Nat :=
  (occPositions needle hay).head?

/-! ## ConsistencyCheckService: data model
(consistency_check_service.py lines 14-84) -/

/-- `LexiQ_ConsistencyChecker_Type` enum. -/
inductive CheckType where
  | SEGMENT_ALIGNMENT
  | GLOSSARY_COMPLIANCE
  | CAPITALIZATION
  | PUNCTUATION
  | NUMBER_FORMAT
  | WHITESPACE
  | TAG_PLACEHOLDER
  | GRAMMAR
  | SPELLING
  | CUSTOM_RULE
deriving DecidableEq, Repr

/-- `list(LexiQ_ConsistencyChecker_Type)` in declaration order. -/
def CheckType.all : List CheckType :=
  [.SEGMENT_ALIGNMENT, .GLOSSARY_COMPLIANCE, .CAPITALIZATION, .PUNCTUATION,
   .NUMBER_FORMAT, .WHITESPACE, .TAG_PLACEHOLDER, .GRAMMAR, .SPELLING,
   .CUSTOM_RULE]

/-- The `.value` string of each check type. -/
def CheckType.value : CheckType → String
  | .SEGMENT_ALIGNMENT => "segment_alignment"
  | .GLOSSARY_COMPLIANCE => "glossary_compliance"
  | .CAPITALIZATION => "capitalization"
  | .PUNCTUATION => "punctuation"
  | .NUMBER_FORMAT => "number_format"
  | .WHITESPACE => "whitespace"
  | .TAG_PLACEHOLDER => "tag_placeholder"
  | .GRAMMAR => "grammar"
  | .SPELLING => "spelling"
  | .CUSTOM_RULE => "custom_rule"

/-- `IssueSeverity` enum. -/
inductive IssueSeverity where
  | CRITICAL
  | MAJOR
  | MINOR
  | INFO
deriving DecidableEq, Repr

/-- `GlossaryTerm` dataclass. -/
structure GlossaryTerm where
  id : String
  source : String
  target : String
  domain : Option String := none
  case_sensitive : Bool := false
  forbidden : Bool := false
deriving DecidableEq, Repr

/-- `CustomRule` dataclass (`type` field renamed `rtype`, a reserved word). -/
structure CustomRule where
  id : String
  name : String
  rtype : String
  pattern : String
  description : String
  replacement : Option String := none
  severity : IssueSeverity := .MINOR
  enabled : Bool := true
deriving DecidableEq, Repr

/-- `ConsistencyIssue` dataclass; `id` is an opaque fresh token modelled
as a `Nat` drawn from the service's fresh-id counter. -/
structure ConsistencyIssue where
  id : Nat
  ctype : CheckType
  severity : IssueSeverity
  target_text : String
  start_position : Nat
  end_position : Nat
  context : String
  message : String
  rationale : String
  suggestions : List String
  confidence : ℚ
  auto_fixable : Bool
  source_text : Option String := none
  rule_id : Option String := none
deriving DecidableEq, Repr

/-- `ConsistencyStatistics` dataclass. -/
structure ConsistencyStatistics where
  total_issues : Nat
  critical_issues : Nat
  major_issues : Nat
  minor_issues : Nat
  info_issues : Nat
  issues_by_type : List (String × Nat)
  quality_score : ℚ
  average_confidence : ℚ
deriving DecidableEq, Repr

/-! ## Statistics aggregation
(`_calculate_statistics`, consistency_check_service.py lines 556-595) -/

/-- `_calculate_statistics`. -/
def calculate_statistics (issues : List ConsistencyIssue) :
    ConsistencyStatistics :=
  let total := issues.length
  let critical := issues.countP (fun i => i.severity = .CRITICAL)
  let major := issues.countP (fun i => i.severity = .MAJOR)
  let minor := issues.countP (fun i => i.severity = .MINOR)
  let info := issues.countP (fun i => i.severity = .INFO)
  let issues_by_type :=
    CheckType.all.map (fun t =>
      (t.value, issues.countP (fun i => i.ctype = t)))
  let quality_score : ℚ :=
    if total = 0 then 100
    else
      let weighted : ℚ := critical * 10 + major * 5 + minor * 2 + info * 1
      max 0 (100 - weighted)
  let avg_confidence : ℚ :=
    if total > 0 then (issues.map (fun i => i.confidence)).sum / total
    else 1
  { total_issues := total
    critical_issues := critical
    major_issues := major
    minor_issues := minor
    info_issues := info
    issues_by_type := issues_by_type
    quality_score := quality_score
    average_confidence := avg_confidence }

/-- Unfolding lemma: the quality score as computed by the source. -/
theorem quality_score_eq (issues : List ConsistencyIssue) :
    (calculate_statistics issues).quality_score
      = if issues.length = 0 then (100 : ℚ)
        else max 0 (100
          - ((issues.countP (fun i => i.severity = .CRITICAL) : ℚ) * 10
            + (issues.countP (fun i => i.severity = .MAJOR) : ℚ) * 5
            + (issues.countP (fun i => i.severity = .MINOR) : ℚ) * 2
            + (issues.countP (fun i => i.severity = .INFO) : ℚ) * 1)) := rfl

/-- Unfolding lemma: the average confidence as computed by the source. -/
theorem average_confidence_eq (issues : List ConsistencyIssue) :
    (calculate_statistics issues).average_confidence
      = if issues.length > 0
        then (issues.map (fun i => i.confidence)).sum / issues.length
        else 1 := rfl

/-- Unfolding lemma: the severity counters as computed by the source. -/
theorem severity_counts_eq (issues : List ConsistencyIssue) :
    (calculate_statistics issues).critical_issues
        = issues.countP (fun i => i.severity = .CRITICAL)
      ∧ (calculate_statistics issues).major_issues
        = issues.countP (fun i => i.severity = .MAJOR)
      ∧ (calculate_statistics issues).minor_issues
        = issues.countP (fun i => i.severity = .MINOR)
      ∧ (calculate_statistics issues).info_issues
        = issues.countP (fun i => i.severity = .INFO) :=
  ⟨rfl, rfl, rfl, rfl⟩

/-- C1: the quality score always equals
`max 0 (100 - (10*critical + 5*major + 2*minor + 1*info))`,
hence lies in `[0, 100]`, and the average confidence is the mean of the
issues' confidences, or `1` for an empty issue list. -/
theorem C1_statistics_formula (issues : List ConsistencyIssue) :
    (calculate_statistics issues).quality_score
      = max 0 (100
          - (10 * ((calculate_statistics issues).critical_issues : ℚ)
            + 5 * ((calculate_statistics issues).major_issues : ℚ)
            + 2 * ((calculate_statistics issues).minor_issues : ℚ)
            + 1 * ((calculate_statistics issues).info_issues : ℚ)))
    ∧ 0 ≤ (calculate_statistics issues).quality_score
    ∧ (calculate_statistics issues).quality_score ≤ 100
    ∧ (calculate_statistics issues).average_confidence
      = (if issues = [] then 1
         else (issues.map (fun i => i.confidence)).sum / issues.length) := by
  obtain ⟨hc, hm, hn, hi⟩ := severity_counts_eq issues
  rw [quality_score_eq, average_confidence_eq, hc, hm, hn, hi]
  by_cases h : issues = []
  · subst h; norm_num
  · have hl : issues.length ≠ 0 := by
      simpa [List.length_eq_zero] using h
    have hlpos : issues.length > 0 := Nat.pos_of_ne_zero hl
    refine ⟨?_, ?_, ?_, ?_⟩
    · simp only [hl, if_false]
      congr 1
      ring
    · simp only [hl, if_false]
      exact le_max_left 0 _
    · simp only [hl, if_false]
      apply max_le
      · norm_num
      · have : (0 : ℚ)
            ≤ (issues.countP (fun i => i.severity = .CRITICAL) : ℚ) * 10
              + (issues.countP (fun i => i.severity = .MAJOR) : ℚ) * 5
              + (issues.countP (fun i => i.severity = .MINOR) : ℚ) * 2
              + (issues.countP (fun i => i.severity = .INFO) : ℚ) * 1 := by
          positivity
        linarith
    · simp only [h, hlpos, if_true, if_false]

/-! ## Glossary compliance
(`_check_glossary_compliance`, consistency_check_service.py lines 208-267,
with `_extract_context`, lines 612-624) -/

/-- `_extract_context`: a window of text around a span, ellipsis-marked
when truncated (`window` defaults to 50 at every call site). -/
def extract_context (text : String) (start stop window : Nat) : String :=
  let context_start := start - window
  let context_end := min (strLen text) (stop + window)
  let context := strSlice text context_start context_end
  let context := if context_start > 0 then "..." ++ context else context
  if context_end < strLen text then context ++ "..." else context

/-- The issues the glossary loop body emits for one glossary term
(`_check_glossary_compliance` loop body): no source occurrence of
`term.source` means `continue`; a forbidden term with target matches
yields one CRITICAL issue per target occurrence of `term.target`;
a non-forbidden term with fewer target than source occurrences yields
one MAJOR issue. -/
def glossary_term_issues (source target : String) (term : GlossaryTerm) :
    List ConsistencyIssue :=
  let source_matches :=
    if term.case_sensitive then occPositions term.source source
    else occPositionsCI term.source source
  if source_matches = [] then []
  else
    let target_matches :=
      if term.case_sensitive then occPositions term.target target
      else occPositionsCI term.target target
    if term.forbidden ∧ target_matches ≠ [] then
      target_matches.map (fun p =>
        { id := 0
          ctype := .GLOSSARY_COMPLIANCE
          severity := .CRITICAL
          target_text := strSlice target p (p + strLen term.target)
          start_position := p
          end_position := p + strLen term.target
          context := extract_context target p (p + strLen term.target) 50
          message := "Forbidden term used: '" ++ term.target ++ "'"
          rationale := "The term '" ++ term.target
            ++ "' is marked as forbidden in the glossary"
          suggestions := ["Remove or replace '" ++ term.target ++ "'"]
          confidence := 1
          auto_fixable := false
          source_text := some term.source })
    else if term.forbidden = false
        ∧ source_matches.length > target_matches.length then
      [{ id := 0
         ctype := .GLOSSARY_COMPLIANCE
         severity := .MAJOR
         target_text := strTake target 100
         start_position := 0
         end_position := strLen target
         context := strTake target 100
         message := "Glossary term '" ++ term.target
           ++ "' appears fewer times than source term '" ++ term.source ++ "'"
         rationale := "Expected " ++ toString source_matches.length
           ++ " occurrences but found " ++ toString target_matches.length
         suggestions := ["Ensure all instances of '" ++ term.source
           ++ "' are translated as '" ++ term.target ++ "'"]
         confidence := 0.85
         auto_fixable := false
         source_text := some term.source }]
    else []

/-- `_check_glossary_compliance`: the loop over glossary terms. -/
def check_glossary_compliance (source target : String)
    (glossary_terms : List GlossaryTerm) : List ConsistencyIssue :=
  glossary_terms.flatMap (glossary_term_issues source target)

/-- C3 counterexample: the glossary term (source "foo", target "bar") is
forbidden and the target text "bar" contains the forbidden term, yet the
check emits no issue at all, because the source text "hello" has no
occurrence of the term's source and the loop skips the term. -/
theorem C3_counterexample :
    strContains "bar" "bar" = true
    ∧ (⟨"g1", "foo", "bar", none, false, true⟩ : GlossaryTerm).forbidden
        = true
    ∧ check_glossary_compliance "hello" "bar"
        [⟨"g1", "foo", "bar", none, false, true⟩] = [] := by
  refine ⟨rfl, rfl, rfl⟩

/-- C3 amended: the compliance check is the term-wise concatenation of
the per-term issues, and for a forbidden term the number of emitted
issues equals the number of occurrences of the term's target in the
target text (per the case flag) when the source text contains the term's
source, and zero otherwise; every emitted issue is CRITICAL of type
GLOSSARY_COMPLIANCE. -/
theorem C3_glossary_forbidden_amended (source target : String)
    (glossary_terms : List GlossaryTerm) (t : GlossaryTerm)
    (hf : t.forbidden = true) :
    check_glossary_compliance source target glossary_terms
      = glossary_terms.flatMap (glossary_term_issues source target)
    ∧ (glossary_term_issues source target t).length
      = (if (if t.case_sensitive then occCount t.source source
             else occCountCI t.source source) ≠ 0
         then (if t.case_sensitive then occCount t.target target
               else occCountCI t.target target)
         else 0)
    ∧ ∀ iss ∈ glossary_term_issues source target t,
        iss.severity = .CRITICAL ∧ iss.ctype = .GLOSSARY_COMPLIANCE := by
  refine ⟨rfl, ?_, ?_⟩
  · unfold glossary_term_issues
    rw [hf]
    simp only [occCount, occCountCI]
    split_ifs with h1 h2 h3 h4 h5 h6 h7 h8 <;>
      simp_all [List.length_eq_zero, List.length_map]
  · intro iss hiss
    unfold glossary_term_issues at hiss
    rw [hf] at hiss
    simp only [eq_self_iff_true, true_and, Bool.true_eq_false, false_and,
      if_false] at hiss
    split_ifs at hiss
    all_goals
      try (rw [List.mem_map] at hiss
           obtain ⟨p, _, rfl⟩ := hiss
           exact ⟨rfl, rfl⟩)
    all_goals exact absurd hiss (List.not_mem_nil iss)

/-- C3 amended witness: a forbidden term whose source occurs in the
source text and whose target occurs twice in the target text yields
exactly two issues. -/
theorem C3_witness :
    (glossary_term_issues "use foo" "a bar bar"
      ⟨"g1", "foo", "bar", none, false, true⟩).length = 2 := by
  have h := (C3_glossary_forbidden_amended "use foo" "a bar bar" []
    ⟨"g1", "foo", "bar", none, false, true⟩ rfl).2.1
  rw [h]
  decide

/-! ## Sentence splitting
(`_split_sentences`, consistency_check_service.py lines 597-610) -/

/-- Membership in the CJK codepoint ranges tested by `_split_sentences`. -/
def isCJKChar (c : Char) : Bool :=
  (0x4E00 ≤ c.toNat ∧ c.toNat ≤ 0x9FFF)
  ∨ (0x3040 ≤ c.toNat ∧ c.toNat ≤ 0x309F)
  ∨ (0x30A0 ≤ c.toNat ∧ c.toNat ≤ 0x30FF)
  ∨ (0xAC00 ≤ c.toNat ∧ c.toNat ≤ 0xD7AF)

/-- `re.split` on a character class: cut at every character satisfying
`p`, dropping the separators. -/
def splitOnPred (p : Char → Bool) : List Char → List (List Char)
  | [] => [[]]
  | c :: rest =>
    if p c then [] :: splitOnPred p rest
    else
      match splitOnPred p rest with
      | s :: ss => (c :: s) :: ss
      | [] => [[c]]

/-- The lookahead of the Western sentence terminator pattern: the rest of
the text is whitespace to the end, or at least one whitespace character
followed by an ASCII capital. -/
def westernLookahead (rest : List Char) : Bool :=
  let r2 := rest.dropWhile Char.isWhitespace
  match r2 with
  | [] => true
  | c :: _ => rest.takeWhile Char.isWhitespace ≠ [] ∧ 'A' ≤ c ∧ c ≤ 'Z'

/-- `re.split` on the Western sentence pattern: cut at `.`/`!`/`?` when
the lookahead holds, consuming the terminator only. -/
def splitWestern : List Char → List (List Char)
  | [] => [[]]
  | c :: rest =>
    if (c = '.' ∨ c = '!' ∨ c = '?') ∧ westernLookahead rest then
      [] :: splitWestern rest
    else
      match splitWestern rest with
      | s :: ss => (c :: s) :: ss
      | [] => [[c]]

/-- `_split_sentences`. -/
def split_sentences (text : String) : List String :=
  let cs := text.toList
  let pieces :=
    if cs.any isCJKChar then
      splitOnPred (fun c => c = '。' ∨ c = '！' ∨ c = '？') cs
    else splitWestern cs
  (pieces.map (fun p => strTrim (String.mk p))).filter (fun s => s ≠ "")

/-! ## Segment alignment
(`_check_segment_alignment`, consistency_check_service.py lines 178-206) -/

/-- `_check_segment_alignment`. -/
def check_segment_alignment (source target : String) :
    List ConsistencyIssue :=
  let source_sentences := split_sentences source
  let target_sentences := split_sentences target
  if source_sentences.length ≠ target_sentences.length then
    [{ id := 0
       ctype := .SEGMENT_ALIGNMENT
       severity := .MAJOR
       target_text := target
       start_position := 0
       end_position := strLen target
       context := strTake target 100
       message := "Segment count mismatch: "
         ++ toString source_sentences.length ++ " source vs "
         ++ toString target_sentences.length ++ " target"
       rationale := "The number of sentences in source and target do not match, indicating potential missing or extra content"
       suggestions := ["Review segment alignment and ensure all source segments are translated"]
       confidence := 0.9
       auto_fixable := false
       source_text := some (strTake source 100) }]
  else []

/-! ## Capitalization
(`_check_capitalization`, consistency_check_service.py lines 269-306) -/

/-- Python regex word character (`\w` over the ASCII data in play). -/
def isWordChar (c : Char) : Bool :=
  c.isAlpha ∨ c.isDigit ∨ c = '_'

/-- Left-to-right matches of the capitalized-word pattern (an ASCII
capital followed by one or more ASCII lowercase letters, with word
boundaries on both sides), with their start positions. -/
def capWordsAux : List Char → Nat → Option Char → List (Nat × List Char)
  | [], _, _ => []
  | c :: rest, i, prev =>
    let boundaryBefore : Bool :=
      match prev with
      | none => true
      | some p => ! isWordChar p
    let lows := rest.takeWhile (fun d => 'a' ≤ d ∧ d ≤ 'z')
    let boundaryAfter : Bool :=
      match rest.drop lows.length with
      | [] => true
      | d :: _ => ! isWordChar d
    if boundaryBefore ∧ 'A' ≤ c ∧ c ≤ 'Z' ∧ lows ≠ [] ∧ boundaryAfter then
      (i, c :: lows) ::
        capWordsAux (rest.drop lows.length) (i + 1 + lows.length)
          (some (lows.getLastD c))
    else capWordsAux rest (i + 1) (some c)
termination_by l _ _ => l.length
decreasing_by
  · simp only [List.length_cons, List.length_drop]
    omega
  · simp

/-- Append a word occurrence to its lowercase group, preserving
first-seen key order (Python dict insertion order). -/
def addToGroup (l : List (String × List (Nat × String))) (k : String)
    (v : Nat × String) : List (String × List (Nat × String)) :=
  match l with
  | [] => [(k, [v])]
  | (k', vs) :: rest =>
    if k' = k then (k', vs ++ [v]) :: rest
    else (k', vs) :: addToGroup rest k v

/-- The `word_positions` dictionary: capitalized words of the target
grouped by lowercase form. -/
def word_positions (ws : List (Nat × String)) :
    List (String × List (Nat × String)) :=
  ws.foldl (fun acc pv => addToGroup acc (strLower pv.2) pv) []

/-- Issues emitted for one lowercase group: when the group has more than
one occurrence and more than one distinct spelling, each occurrence
after the first that differs from the first spelling yields one MINOR
auto-fixable issue suggesting the first spelling. -/
def cap_group_issues (target : String) (positions : List (Nat × String)) :
    List ConsistencyIssue :=
  match positions with
  | [] => []
  | first :: restPos =>
    if positions.length > 1 ∧ (positions.map Prod.snd).dedup.length > 1 then
      (restPos.filter (fun pv => pv.2 ≠ first.2)).map (fun pv =>
        { id := 0
          ctype := .CAPITALIZATION
          severity := .MINOR
          target_text := pv.2
          start_position := pv.1
          end_position := pv.1 + strLen pv.2
          context := extract_context target pv.1 (pv.1 + strLen pv.2) 50
          message := "Inconsistent capitalization: '" ++ pv.2 ++ "' vs '"
            ++ first.2 ++ "'"
          rationale := "The same word appears with different capitalization patterns"
          suggestions := [first.2]
          confidence := 0.7
          auto_fixable := true })
    else []

/-- `_check_capitalization` (only the target text is scanned). -/
def check_capitalization (source target : String) :
    List ConsistencyIssue :=
  let ws := (capWordsAux target.toList 0 none).map
    (fun p => (p.1, String.mk p.2))
  (word_positions ws).flatMap (fun g => cap_group_issues target g.2)

/-! ## Punctuation
(`_check_punctuation`, consistency_check_service.py lines 308-354) -/

/-- The punctuation character class of `_check_punctuation`
(`Char.ofNat 39` is the apostrophe). -/
def isPunctChar (c : Char) : Bool :=
  c = '.' ∨ c = ',' ∨ c = ';' ∨ c = ':' ∨ c = '!' ∨ c = '?' ∨ c = '('
  ∨ c = ')' ∨ c = '"' ∨ c = Char.ofNat 39 ∨ c = '[' ∨ c = ']' ∨ c = '{'
  ∨ c = '}'

/-- Deduplicate keeping first occurrences; the canonical deterministic
order chosen for Python's per-process-deterministic set iteration. -/
def dedupKeepFirst {α : Type} [DecidableEq α] : List α → List α
  | [] => []
  | c :: rest => c :: dedupKeepFirst (rest.filter (fun x => x ≠ c))
termination_by l => l.length
decreasing_by
  simp only [List.length_cons]
  have := List.length_filter_le (fun x => x ≠ c) rest
  omega

/-- Python `s.count(c)` for a single character. -/
def countChar (c : Char) (s : String) : Nat :=
  (s.toList.filter (fun d => d = c)).length

/-- The bracket/quote pairs checked for balance, in source order. -/
def punct_pairs : List (Char × Char) :=
  [('(', ')'), ('[', ']'), ('{', '}'), ('"', '"')]

/-- `_check_punctuation`. -/
def check_punctuation (source target : String) : List ConsistencyIssue :=
  let source_punct := dedupKeepFirst (source.toList.filter isPunctChar)
  let target_punct := dedupKeepFirst (target.toList.filter isPunctChar)
  let missing := source_punct.filter (fun c => ¬ (c ∈ target_punct))
  let missing_str :=
    String.intercalate ", " (missing.map (fun c => String.mk [c]))
  let missingIssues :=
    if missing ≠ [] then
      [{ id := 0
         ctype := .PUNCTUATION
         severity := .MINOR
         target_text := strTake target 100
         start_position := 0
         end_position := strLen target
         context := strTake target 100
         message := "Missing punctuation types: " ++ missing_str
         rationale := "Some punctuation marks present in source are missing in target"
         suggestions := ["Review if punctuation marks " ++ missing_str
           ++ " should be included"]
         confidence := 0.6
         auto_fixable := false }]
    else []
  let balanceIssues := punct_pairs.flatMap (fun oc =>
    let openCount := countChar oc.1 target
    let closeCount := countChar oc.2 target
    if openCount ≠ closeCount then
      [{ id := 0
         ctype := .PUNCTUATION
         severity := .MAJOR
         target_text := strTake target 100
         start_position := 0
         end_position := strLen target
         context := strTake target 100
         message := "Unbalanced " ++ String.mk [oc.1, oc.2] ++ ": "
           ++ toString openCount ++ " opening vs "
           ++ toString closeCount ++ " closing"
         rationale := "Mismatched opening and closing punctuation marks"
         suggestions := ["Ensure all " ++ String.mk [oc.1]
           ++ " have matching " ++ String.mk [oc.2]]
         confidence := 0.95
         auto_fixable := false }]
    else [])
  missingIssues ++ balanceIssues

/-! ## Number format
(`_check_number_format`, consistency_check_service.py lines 356-382) -/

/-- Length of the continuation-group part of a numeric token: the
repeated `[.,]\d+` groups matched greedily. -/
def numGroupsLen : List Char → Nat
  | [] => 0
  | c :: rest =>
    if c = '.' ∨ c = ',' then
      let ds := rest.takeWhile Char.isDigit
      if ds = [] then 0
      else 1 + ds.length + numGroupsLen (rest.drop ds.length)
    else 0
termination_by l => l.length
decreasing_by
  simp only [List.length_cons, List.length_drop]
  omega

/-- Left-to-right matches of the numeric-token pattern: a digit run
followed by zero or more `[.,]`-digit-run groups. -/
def numTokensAux : List Char → List (List Char)
  | [] => []
  | c :: rest =>
    if c.isDigit then
      let ds := rest.takeWhile Char.isDigit
      let r1 := rest.drop ds.length
      let n := numGroupsLen r1
      ((c :: ds) ++ r1.take n) :: numTokensAux (r1.drop n)
    else numTokensAux rest
termination_by l => l.length
decreasing_by
  · simp only [List.length_cons, List.length_drop]
    omega
  · simp

/-- The numeric tokens of a text, `re.findall` of the number pattern. -/
def numTokens (s : String) : List String :=
  (numTokensAux s.toList).map String.mk

/-- `_check_number_format`. -/
def check_number_format (source target : String) :
    List ConsistencyIssue :=
  let source_numbers := numTokens source
  let target_numbers := numTokens target
  if source_numbers.length ≠ target_numbers.length then
    [{ id := 0
       ctype := .NUMBER_FORMAT
       severity := .MAJOR
       target_text := strTake target 100
       start_position := 0
       end_position := strLen target
       context := strTake target 100
       message := "Number count mismatch: "
         ++ toString source_numbers.length ++ " in source vs "
         ++ toString target_numbers.length ++ " in target"
       rationale := "The number of numeric values differs between source and target"
       suggestions := ["Verify all numbers are correctly translated"]
       confidence := 0.9
       auto_fixable := false
       source_text := some (String.intercalate ", " source_numbers) }]
  else []

/-! ## Whitespace
(`_check_whitespace`, consistency_check_service.py lines 384-438) -/

/-- Python `s[-n:]`. -/
def strTakeRight (s : String) (n : Nat) : String :=
  String.mk (s.toList.drop (s.toList.length - n))

/-- Maximal runs of two or more spaces (start position and length), the
matches of the multiple-space pattern. -/
def spaceRunsAux : List Char → Nat → List (Nat × Nat)
  | [], _ => []
  | c :: rest, i =>
    if c = ' ' then
      let sp := rest.takeWhile (fun d => d = ' ')
      let len := 1 + sp.length
      if 2 ≤ len then
        (i, len) :: spaceRunsAux (rest.drop sp.length) (i + len)
      else spaceRunsAux (rest.drop sp.length) (i + len)
    else spaceRunsAux rest (i + 1)
termination_by l _ => l.length
decreasing_by
  · simp only [List.length_cons, List.length_drop]
    omega
  · simp only [List.length_cons, List.length_drop]
    omega
  · simp

/-- `_check_whitespace`. -/
def check_whitespace (target : String) : List ConsistencyIssue :=
  let leading :=
    if target.toList.head? = some ' ' ∨ target.toList.head? = some '\t' then
      [{ id := 0
         ctype := .WHITESPACE
         severity := .MINOR
         target_text := strTake target 10
         start_position := 0
         end_position := 1
         context := strTake target 50
         message := "Leading whitespace detected"
         rationale := "Text begins with unnecessary whitespace"
         suggestions := ["Remove leading whitespace"]
         confidence := 1
         auto_fixable := true }]
    else []
  let trailing :=
    if target.toList.getLast? = some ' '
        ∨ target.toList.getLast? = some '\t' then
      [{ id := 0
         ctype := .WHITESPACE
         severity := .MINOR
         target_text := strTakeRight target 10
         start_position := strLen target - 1
         end_position := strLen target
         context := strTakeRight target 50
         message := "Trailing whitespace detected"
         rationale := "Text ends with unnecessary whitespace"
         suggestions := ["Remove trailing whitespace"]
         confidence := 1
         auto_fixable := true }]
    else []
  let runs := (spaceRunsAux target.toList 0).map (fun r =>
    { id := 0
      ctype := .WHITESPACE
      severity := .MINOR
      target_text := strSlice target r.1 (r.1 + r.2)
      start_position := r.1
      end_position := r.1 + r.2
      context := extract_context target r.1 (r.1 + r.2) 50
      message := "Multiple consecutive spaces (" ++ toString r.2
        ++ " spaces)"
      rationale := "Multiple spaces should typically be reduced to a single space"
      suggestions := [" "]
      confidence := 0.95
      auto_fixable := true })
  leading ++ trailing ++ runs

/-! ## Tags and placeholders
(`_check_tags_placeholders`, consistency_check_service.py lines 440-487) -/

/-- Left-to-right matches of the XML/HTML tag pattern: `<`, one or more
non-`>` characters, `>`. -/
def tagTokensAux : List Char → List (List Char)
  | [] => []
  | c :: rest =>
    if c = '<' then
      let body := rest.takeWhile (fun d => d ≠ '>')
      if body.length < rest.length ∧ body ≠ [] then
        (('<' :: body) ++ ['>']) :: tagTokensAux (rest.drop (body.length + 1))
      else tagTokensAux rest
    else tagTokensAux rest
termination_by l => l.length
decreasing_by
  · simp only [List.length_cons, List.length_drop]
    omega
  · simp
  · simp

/-- Left-to-right matches of the placeholder alternation: a braced
placeholder, a percent placeholder (`%s`/`%d`), or a dollar-braced
placeholder. -/
def placeholderTokensAux : List Char → List (List Char)
  | [] => []
  | c :: rest =>
    if c = '{' then
      let body := rest.takeWhile (fun d => d ≠ '}')
      if body.length < rest.length ∧ body ≠ [] then
        (('{' :: body) ++ ['}'])
          :: placeholderTokensAux (rest.drop (body.length + 1))
      else placeholderTokensAux rest
    else if c = '%' then
      if rest.head? = some 's' ∨ rest.head? = some 'd' then
        ('%' :: rest.take 1) :: placeholderTokensAux (rest.drop 1)
      else placeholderTokensAux rest
    else if c = '$' then
      if rest.head? = some '{' then
        let r1 := rest.drop 1
        let body := r1.takeWhile (fun d => d ≠ '}')
        if body.length < r1.length ∧ body ≠ [] then
          (('$' :: '{' :: body) ++ ['}'])
            :: placeholderTokensAux (r1.drop (body.length + 1))
        else placeholderTokensAux rest
      else placeholderTokensAux rest
    else placeholderTokensAux rest
termination_by l => l.length
decreasing_by
  all_goals simp only [List.length_cons, List.length_drop]
  all_goals omega

/-- The tag tokens of a text. -/
def tagTokens (s : String) : List String :=
  (tagTokensAux s.toList).map String.mk

/-- The placeholder tokens of a text. -/
def placeholderTokens (s : String) : List String :=
  (placeholderTokensAux s.toList).map String.mk

/-- `_check_tags_placeholders`. -/
def check_tags_placeholders (source target : String) :
    List ConsistencyIssue :=
  let source_tags := tagTokens source
  let target_tags := tagTokens target
  let tagIssues :=
    if source_tags.length ≠ target_tags.length then
      [{ id := 0
         ctype := .TAG_PLACEHOLDER
         severity := .CRITICAL
         target_text := strTake target 100
         start_position := 0
         end_position := strLen target
         context := strTake target 100
         message := "Tag count mismatch: " ++ toString source_tags.length
           ++ " in source vs " ++ toString target_tags.length
           ++ " in target"
         rationale := "XML/HTML tags must be preserved between source and target"
         suggestions := ["Ensure all tags from source are present in target"]
         confidence := 1
         auto_fixable := false
         source_text := some (String.intercalate ", " source_tags) }]
    else []
  let source_placeholders := placeholderTokens source
  let target_placeholders := placeholderTokens target
  let placeholderIssues :=
    if source_placeholders.length ≠ target_placeholders.length then
      [{ id := 0
         ctype := .TAG_PLACEHOLDER
         severity := .CRITICAL
         target_text := strTake target 100
         start_position := 0
         end_position := strLen target
         context := strTake target 100
         message := "Placeholder count mismatch: "
           ++ toString source_placeholders.length ++ " in source vs "
           ++ toString target_placeholders.length ++ " in target"
         rationale := "Placeholders must be preserved between source and target"
         suggestions := ["Ensure all placeholders from source are present in target"]
         confidence := 1
         auto_fixable := false
         source_text := some (String.intercalate ", " source_placeholders) }]
    else []
  tagIssues ++ placeholderIssues

/-! ## Custom rules
(`_check_custom_rules`, consistency_check_service.py lines 489-554) -/

/-- One match reported by the external `re` engine. -/
structure RegexMatch where
  start : Nat
  stop : Nat
  group : String
deriving DecidableEq, Repr

/-- The external `re` engine for user-supplied patterns: `find` is
case-sensitive `finditer`, `findCI` is `finditer` with IGNORECASE
(`re.search` of a pattern succeeds exactly when `findCI` is nonempty). -/
structure RegexEngine where
  find : String → String → List RegexMatch
  findCI : String → String → List RegexMatch

/-- Python truthiness of `rule.replacement` (`None` and the empty string
are falsy). -/
def truthyOpt : Option String → Bool
  | none => false
  | some s => s ≠ ""

/-- The issues emitted for one custom rule (the loop body of
`_check_custom_rules`). -/
def custom_rule_issues (rex : RegexEngine) (target : String)
    (rule : CustomRule) : List ConsistencyIssue :=
  if rule.enabled = false then []
  else if rule.rtype = "regex" then
    (rex.find rule.pattern target).map (fun m =>
      { id := 0
        ctype := .CUSTOM_RULE
        severity := rule.severity
        target_text := m.group
        start_position := m.start
        end_position := m.stop
        context := extract_context target m.start m.stop 50
        message := "Custom rule violation: " ++ rule.name
        rationale := rule.description
        suggestions := if truthyOpt rule.replacement
          then [rule.replacement.getD ""] else []
        confidence := 0.8
        auto_fixable := truthyOpt rule.replacement
        rule_id := some rule.id })
  else if rule.rtype = "forbidden" then
    (rex.findCI rule.pattern target).map (fun m =>
      { id := 0
        ctype := .CUSTOM_RULE
        severity := .CRITICAL
        target_text := m.group
        start_position := m.start
        end_position := m.stop
        context := extract_context target m.start m.stop 50
        message := "Forbidden term detected: " ++ rule.name
        rationale := rule.description
        suggestions := ["Remove or replace this term"]
        confidence := 1
        auto_fixable := false
        rule_id := some rule.id })
  else if rule.rtype = "required" then
    if rex.findCI rule.pattern target = [] then
      [{ id := 0
         ctype := .CUSTOM_RULE
         severity := rule.severity
         target_text := strTake target 100
         start_position := 0
         end_position := strLen target
         context := strTake target 100
         message := "Required term missing: " ++ rule.name
         rationale := rule.description
         suggestions := ["Add required term matching pattern: "
           ++ rule.pattern]
         confidence := 0.9
         auto_fixable := false
         rule_id := some rule.id }]
    else []
  else []

/-- `_check_custom_rules`. -/
def check_custom_rules (rex : RegexEngine) (target : String)
    (custom_rules : List CustomRule) : List ConsistencyIssue :=
  custom_rules.flatMap (custom_rule_issues rex target)

/-! ## The service and `check_consistency`
(consistency_check_service.py lines 86-176) -/

/-- `ConsistencyCheckService` state: the content cache plus the fresh-id
counter modelling the uuid stream. -/
structure ConsistencyCheckService where
  cache : List (String × (List ConsistencyIssue × ConsistencyStatistics))
  next_id : Nat

/-- `generate_cache_key`: the md5 fingerprint of
`source + "|" + target + "|" + language_pair`, embedded as the
fingerprinted content itself. -/
def generate_cache_key (source target language_pair : String) : String :=
  source ++ "|" ++ target ++ "|" ++ language_pair

/-- The sequence of checks `check_consistency` runs (in source order),
before ids are assigned; a `None` or empty glossary/rule list skips its
check (Python truthiness). -/
def run_checks (rex : RegexEngine) (source_text translation_text : String)
    (glossary_terms : Option (List GlossaryTerm))
    (custom_rules : Option (List CustomRule))
    (check_types : List CheckType) : List ConsistencyIssue :=
  (if CheckType.SEGMENT_ALIGNMENT ∈ check_types
   then check_segment_alignment source_text translation_text else [])
  ++ (match glossary_terms with
      | some gs =>
        if CheckType.GLOSSARY_COMPLIANCE ∈ check_types ∧ gs ≠ []
        then check_glossary_compliance source_text translation_text gs
        else []
      | none => [])
  ++ (if CheckType.CAPITALIZATION ∈ check_types
      then check_capitalization source_text translation_text else [])
  ++ (if CheckType.PUNCTUATION ∈ check_types
      then check_punctuation source_text translation_text else [])
  ++ (if CheckType.NUMBER_FORMAT ∈ check_types
      then check_number_format source_text translation_text else [])
  ++ (if CheckType.WHITESPACE ∈ check_types
      then check_whitespace translation_text else [])
  ++ (if CheckType.TAG_PLACEHOLDER ∈ check_types
      then check_tags_placeholders source_text translation_text else [])
  ++ (match custom_rules with
      | some cs =>
        if CheckType.CUSTOM_RULE ∈ check_types ∧ cs ≠ []
        then check_custom_rules rex translation_text cs
        else []
      | none => [])

/-- Assign fresh ids (the uuid stream) to the issues of one run. -/
def assign_ids (issues : List ConsistencyIssue) (base : Nat) :
    List ConsistencyIssue :=
  issues.enum.map (fun p => { p.2 with id := base + p.1 })

/-- `check_consistency`: consult the cache when enabled, otherwise run
the checks, compute statistics, and populate the cache; returns the
(issues, statistics) pair and the updated service state. -/
def check_consistency (rex : RegexEngine) (svc : ConsistencyCheckService)
    (source_text translation_text source_language target_language : String)
    (glossary_terms : Option (List GlossaryTerm))
    (custom_rules : Option (List CustomRule))
    (check_types : Option (List CheckType))
    (enable_cache : Bool) :
    (List ConsistencyIssue × ConsistencyStatistics)
      × ConsistencyCheckService :=
  let cache_key := generate_cache_key source_text translation_text
    (source_language ++ "-" ++ target_language)
  match (if enable_cache then svc.cache.lookup cache_key else none) with
  | some cached => (cached, svc)
  | none =>
    let ctypes := check_types.getD CheckType.all
    let raw := run_checks rex source_text translation_text glossary_terms
      custom_rules ctypes
    let issues := assign_ids raw svc.next_id
    let statistics := calculate_statistics issues
    let svc2 : ConsistencyCheckService :=
      { cache := if enable_cache
          then (cache_key, (issues, statistics)) :: svc.cache
          else svc.cache
        next_id := svc.next_id + raw.length }
    ((issues, statistics), svc2)

/-- C7: with caching enabled, a second `check_consistency` call with the
same source text, target text and language pair on the state left by the
first call returns exactly the (issues, statistics) pair that the first
call produced and cached. -/
theorem C7_check_consistency_idempotent (rex : RegexEngine)
    (svc : ConsistencyCheckService)
    (source_text translation_text source_language target_language : String)
    (glossary_terms : Option (List GlossaryTerm))
    (custom_rules : Option (List CustomRule))
    (check_types : Option (List CheckType)) :
    (check_consistency rex
        (check_consistency rex svc source_text translation_text
          source_language target_language glossary_terms custom_rules
          check_types true).2
        source_text translation_text source_language target_language
        glossary_terms custom_rules check_types true).1
      = (check_consistency rex svc source_text translation_text
          source_language target_language glossary_terms custom_rules
          check_types true).1 := by
  unfold check_consistency
  cases hl : svc.cache.lookup (generate_cache_key source_text
      translation_text (source_language ++ "-" ++ target_language)) with
  | some cached => simp [hl]
  | none => simp [hl, List.lookup]

/-- C10: the cache key is a function of the source text, target text and
language pair alone; on a service whose cache already holds an entry for
that triple, any call with caching enabled returns the cached pair
regardless of the glossary terms, custom rules, or check types supplied,
so two such calls differing only in those arguments return identical
results and leave the state unchanged. -/
theorem C10_cache_ignores_rule_arguments (rex : RegexEngine)
    (svc : ConsistencyCheckService)
    (source_text translation_text source_language target_language : String)
    (cached : List ConsistencyIssue × ConsistencyStatistics)
    (h : svc.cache.lookup (generate_cache_key source_text translation_text
      (source_language ++ "-" ++ target_language)) = some cached)
    (glossary_terms₁ glossary_terms₂ : Option (List GlossaryTerm))
    (custom_rules₁ custom_rules₂ : Option (List CustomRule))
    (check_types₁ check_types₂ : Option (List CheckType)) :
    check_consistency rex svc source_text translation_text source_language
        target_language glossary_terms₁ custom_rules₁ check_types₁ true
      = (cached, svc)
    ∧ check_consistency rex svc source_text translation_text
        source_language target_language glossary_terms₁ custom_rules₁
        check_types₁ true
      = check_consistency rex svc source_text translation_text
          source_language target_language glossary_terms₂ custom_rules₂
          check_types₂ true := by
  unfold check_consistency
  simp [h]

/-- C10 witness: a concrete service whose cache holds an entry for the
("hello", "hola", "en-es") triple returns that entry even when the later
call supplies a glossary, custom rules and a restricted check-type list,
and agrees with a call supplying none of them. -/
theorem C10_witness :
    check_consistency ⟨fun _ _ => [], fun _ _ => []⟩
        ⟨[(generate_cache_key "hello" "hola" "en-es",
          ([], calculate_statistics []))], 7⟩
        "hello" "hola" "en" "es"
        (some [⟨"g1", "foo", "bar", none, false, true⟩])
        (some [⟨"r1", "rule", "regex", "x", "", none, .MINOR, true⟩])
        (some [.WHITESPACE]) true
      = (([], calculate_statistics []),
          ⟨[(generate_cache_key "hello" "hola" "en-es",
            ([], calculate_statistics []))], 7⟩)
    ∧ check_consistency ⟨fun _ _ => [], fun _ _ => []⟩
        ⟨[(generate_cache_key "hello" "hola" "en-es",
          ([], calculate_statistics []))], 7⟩
        "hello" "hola" "en" "es"
        (some [⟨"g1", "foo", "bar", none, false, true⟩])
        (some [⟨"r1", "rule", "regex", "x", "", none, .MINOR, true⟩])
        (some [.WHITESPACE]) true
      = check_consistency ⟨fun _ _ => [], fun _ _ => []⟩
          ⟨[(generate_cache_key "hello" "hola" "en-es",
            ([], calculate_statistics []))], 7⟩
          "hello" "hola" "en" "es" none none none true :=
  C10_cache_ignores_rule_arguments ⟨fun _ _ => [], fun _ _ => []⟩
    ⟨[(generate_cache_key "hello" "hola" "en-es",
      ([], calculate_statistics []))], 7⟩
    "hello" "hola" "en" "es" ([], calculate_statistics []) rfl
    (some [⟨"g1", "foo", "bar", none, false, true⟩]) none
    (some [⟨"r1", "rule", "regex", "x", "", none, .MINOR, true⟩]) none
    (some [.WHITESPACE]) none

/-! ## EnhancedLexiQEngine: data model and tables
(enhanced_lexiq_engine.py lines 13-99) -/

/-- `FallbackTier` enum. -/
inductive FallbackTier where
  | TIER_1_DATAFRAME
  | TIER_2_SEMANTIC
  | TIER_3_AUTO_RECOMMEND
deriving DecidableEq, Repr

/-- `TermValidationResult` dataclass. -/
structure TermValidationResult where
  term : String
  is_valid : Bool
  confidence : ℚ
  fallback_tier : FallbackTier
  rationale : String
  recommended_term : Option String := none
  semantic_type : Option String := none
  domain_match : Bool := false
  language_match : Bool := false
deriving DecidableEq, Repr

/-- `SemanticInferenceResult` dataclass. -/
structure SemanticInferenceResult where
  semantic_type : String
  confidence : ℚ
  context_keywords : List String
  domain_relevance : ℚ
deriving DecidableEq, Repr

/-- A row of the glossary DataFrame used by tier 1 (typed columns
`term`, `domain`, `language` and the optional `semantic_type` read via
`row.get`); the DataFrame's required-columns guard is a representation
artifact with no counterpart for typed rows. -/
structure GlossaryRow where
  term : String
  domain : String
  language : String
  semantic_type : Option String := none
deriving DecidableEq, Repr

/-- A suggestion-pool record; `dict.get(key, '')` defaults are the empty
string, `get('term')`/`get('semantic_type')` may be absent. -/
structure Suggestion where
  term : String := ""
  domain : String := ""
  language : String := ""
  semantic_type : Option String := none
deriving DecidableEq, Repr

/-- `self.domain_keywords` (insertion order preserved). -/
def domain_keywords : List (String × List String) :=
  [("technology",
    ["implementation", "deployment", "framework", "architecture",
     "database", "API", "interface", "authentication", "configuration",
     "optimization", "validation", "module", "component"]),
   ("medical",
    ["treatment", "diagnosis", "medication", "procedure", "symptom",
     "patient", "physician", "examination", "therapy", "intervention"]),
   ("legal",
    ["contract", "litigation", "compliance", "regulation", "liability",
     "jurisdiction", "plaintiff", "defendant", "statute", "ordinance"]),
   ("finance",
    ["investment", "revenue", "expenditure", "profit", "asset",
     "liability", "transaction", "portfolio", "capital", "equity"]),
   ("marketing",
    ["campaign", "engagement", "conversion", "audience", "brand",
     "content", "strategy", "analytics", "ROI", "demographic"])]

/-- `self.semantic_patterns` (insertion order preserved). -/
def semantic_patterns : List (String × List String) :=
  [("technical_term", ["system", "process", "method", "technique",
    "protocol"]),
   ("action_verb", ["implement", "execute", "deploy", "configure",
    "optimize"]),
   ("entity", ["user", "client", "server", "database", "application"]),
   ("attribute", ["secure", "efficient", "scalable", "robust",
    "reliable"]),
   ("measurement", ["performance", "throughput", "latency", "capacity",
    "load"])]

/-- Two-decimal rendering of a rational, standing in for Python's
`:.2f` float formatting inside free-text rationales (display only; no
claim depends on these strings). -/
def fmt2 (q : ℚ) : String :=
  let h : ℤ := round (q * 100)
  let frac := (h % 100).natAbs
  toString (h / 100) ++ "." ++ (if frac < 10 then "0" else "")
    ++ toString frac

/-- Python `str(bool)` for the tier-1 partial-match rationale. -/
def pyBool (b : Bool) : String :=
  if b then "True" else "False"

/-! ## Tier 1: DataFrame lookup
(`_tier1_dataframe_lookup`, enhanced_lexiq_engine.py lines 139-211) -/

/-- The exact-match row predicate of tier 1: lowercased term, domain AND
language all match. -/
def tier1_exact_pred (term domain language : String) (r : GlossaryRow) :
    Bool :=
  strLower r.term = strTrim (strLower term)
  ∧ strLower r.domain = strLower domain
  ∧ strLower r.language = strLower language

/-- The fuzzy-match row predicate of tier 1: lowercased term matches and
domain OR language matches. -/
def tier1_fuzzy_pred (term domain language : String) (r : GlossaryRow) :
    Bool :=
  strLower r.term = strTrim (strLower term)
  ∧ (strLower r.domain = strLower domain
     ∨ strLower r.language = strLower language)

/-- `_tier1_dataframe_lookup`. -/
def tier1_dataframe_lookup (glossary_df : List GlossaryRow)
    (term domain language : String) : Option TermValidationResult :=
  if glossary_df = [] then none
  else
    match glossary_df.filter (tier1_exact_pred term domain language) with
    | row :: _ =>
      some { term := term
             is_valid := true
             confidence := 1
             fallback_tier := .TIER_1_DATAFRAME
             rationale := "Exact match found in glossary DataFrame"
             domain_match := true
             language_match := true
             semantic_type := row.semantic_type }
    | [] =>
      match glossary_df.filter (tier1_fuzzy_pred term domain language) with
      | row :: _ =>
        let dm := decide (strLower row.domain = strLower domain)
        let lm := decide (strLower row.language = strLower language)
        some { term := term
               is_valid := true
               confidence := 0.8
               fallback_tier := .TIER_1_DATAFRAME
               rationale := "Partial match found (domain: " ++ pyBool dm
                 ++ ", language: " ++ pyBool lm ++ ")"
               domain_match := dm
               language_match := lm
               semantic_type := row.semantic_type }
      | [] => none

/-! ## Tier 2: semantic inference
(`_infer_semantic_type` and `_tier2_semantic_inference`,
enhanced_lexiq_engine.py lines 213-259 and 336-390) -/

/-- `_infer_semantic_type`. -/
def infer_semantic_type (term domain context : String) :
    SemanticInferenceResult :=
  let term_lower := strLower term
  let context_lower := strLower context
  let domain_keywords_list :=
    (domain_keywords.lookup (strLower domain)).getD []
  let context_keywords :=
    domain_keywords_list.filter (fun kw => strContains kw context_lower)
  let domain_relevance : ℚ :=
    (context_keywords.length : ℚ)
      / (max domain_keywords_list.length 1 : ℚ)
  let domain_relevance := min (domain_relevance * 2) 1
  let found := semantic_patterns.findSome? (fun tp =>
    if tp.2.any (fun pat =>
        strContains pat term_lower ∨ strContains term_lower pat)
    then some tp.1 else none)
  let semantic_type := found.getD "unknown"
  let confidence : ℚ := if found.isSome then 0.8 else 0.5
  let confidence :=
    if context_keywords ≠ [] then
      min (confidence + (0.1 : ℚ) * context_keywords.length) 1
    else confidence
  { semantic_type := semantic_type
    confidence := confidence
    context_keywords := context_keywords
    domain_relevance := domain_relevance }

/-- `_tier2_semantic_inference` (the `language` argument is unused by the
source as well). -/
def tier2_semantic_inference (term domain language context : String) :
    Option TermValidationResult :=
  let semantic_result := infer_semantic_type term domain context
  if semantic_result.confidence < 0.6 then none
  else
    let domain_relevant :=
      decide (semantic_result.domain_relevance ≥ 0.5)
    let rationale_parts :=
      ["Semantic type: " ++ semantic_result.semantic_type,
       "Confidence: " ++ fmt2 semantic_result.confidence,
       "Domain relevance: " ++ fmt2 semantic_result.domain_relevance]
    let rationale_parts :=
      if semantic_result.context_keywords ≠ [] then
        rationale_parts ++ ["Context keywords: " ++ String.intercalate
          ", " (semantic_result.context_keywords.take 3)]
      else rationale_parts
    some { term := term
           is_valid := domain_relevant
           confidence := semantic_result.confidence
           fallback_tier := .TIER_2_SEMANTIC
           rationale := String.intercalate " | " rationale_parts
           semantic_type := some semantic_result.semantic_type
           domain_match := domain_relevant
           language_match := true }

/-! ## Tier 3: pool recommendation
(`_tier3_auto_recommend`, enhanced_lexiq_engine.py lines 261-334) -/

/-- Python `s.split()` (split on whitespace runs, no empty pieces). -/
def pyWordSplit (s : String) : List String :=
  ((splitOnPred Char.isWhitespace s.toList).map String.mk).filter
    (fun w => w ≠ "")

/-- The word set of a term (`set(s.split())`), as a duplicate-free
list. -/
def wordSet (s : String) : List String :=
  (pyWordSplit s).dedup

/-- The tier-3 similarity of a candidate word set against the query word
set: zero when the sets share no word, otherwise shared words divided by
the larger set's size. -/
def similarity_score (term_words suggestion_words : List String) : ℚ :=
  let inter := term_words.filter (fun w => w ∈ suggestion_words)
  if inter = [] then 0
  else (inter.length : ℚ)
    / (max term_words.length suggestion_words.length : ℚ)

/-- The similarity of one pool suggestion against the query word set. -/
def suggestion_sim (term_words : List String) (s : Suggestion) : ℚ :=
  similarity_score term_words (wordSet (strLower s.term))

/-- One step of the tier-3 best-candidate scan: a candidate sharing at
least one word and strictly improving on the best score so far replaces
it. -/
def tier3_step (term_words : List String)
    (acc : Option Suggestion × ℚ) (s : Suggestion) :
    Option Suggestion × ℚ :=
  let suggestion_words := wordSet (strLower s.term)
  let inter := term_words.filter (fun w => w ∈ suggestion_words)
  if inter ≠ [] then
    let similarity := similarity_score term_words suggestion_words
    if similarity > acc.2 then (some s, similarity) else acc
  else acc

/-- The tier-3 candidate pool: same domain and language, relaxed to
language only when that filter is empty. -/
def tier3_filtered_pool (pool : List Suggestion)
    (domain language : String) : List Suggestion :=
  let filtered := pool.filter (fun s =>
    strLower s.domain = strLower domain
    ∧ strLower s.language = strLower language)
  if filtered = [] then
    pool.filter (fun s => strLower s.language = strLower language)
  else filtered

/-- The best candidate and score of the tier-3 scan. -/
def tier3_best (pool : List Suggestion)
    (term domain language : String) : Option Suggestion × ℚ :=
  (tier3_filtered_pool pool domain language).foldl
    (tier3_step (wordSet (strLower term))) (none, 0)

/-- The terminal no-recommendation result of tier 3. -/
def tier3_no_recommendation (term : String) : TermValidationResult :=
  { term := term
    is_valid := false
    confidence := 0
    fallback_tier := .TIER_3_AUTO_RECOMMEND
    rationale := "No suitable recommendation found in suggestion pool"
    domain_match := false
    language_match := true }

/-- `_tier3_auto_recommend` (the `context` argument is unused by the
source as well). -/
def tier3_auto_recommend (pool : List Suggestion)
    (term domain language context : String) : TermValidationResult :=
  let best := tier3_best pool term domain language
  match best.1 with
  | some best_match =>
    if best.2 ≥ 0.3 then
      { term := term
        is_valid := false
        confidence := best.2
        fallback_tier := .TIER_3_AUTO_RECOMMEND
        rationale := "Auto-recommended from suggestion pool (similarity: "
          ++ fmt2 best.2 ++ ")"
        recommended_term := some best_match.term
        semantic_type := best_match.semantic_type
        domain_match := decide
          (strLower best_match.domain = strLower domain)
        language_match := true }
    else tier3_no_recommendation term
  | none => tier3_no_recommendation term

/-- `validate_term`: tier 1, else tier 2 when it returns with confidence
at least 0.6, else tier 3. -/
def validate_term (glossary_df : List GlossaryRow)
    (pool : List Suggestion) (term domain language context : String) :
    TermValidationResult :=
  match tier1_dataframe_lookup glossary_df term domain language with
  | some r => r
  | none =>
    match tier2_semantic_inference term domain language context with
    | some r2 =>
      if r2.confidence ≥ 0.6 then r2
      else tier3_auto_recommend pool term domain language context
    | none => tier3_auto_recommend pool term domain language context

/-- C2: tier 1 of `validate_term` behaves as specified — a repository
row matching the lowercased term with both domain and language matching
yields is_valid, confidence 1 and both match flags set; with no exact
match, the first row matching the term with domain or language matching
yields is_valid, confidence 0.8 and match flags reflecting that row's
matching fields; with no matching row at all, tier 1 yields nothing and
`validate_term` proceeds with tiers 2 and 3. -/
theorem C2_tier1_lookup (glossary_df : List GlossaryRow)
    (pool : List Suggestion) (term domain language context : String) :
    (∀ row rows,
      glossary_df.filter (tier1_exact_pred term domain language)
          = row :: rows →
      tier1_dataframe_lookup glossary_df term domain language
        = some { term := term
                 is_valid := true
                 confidence := 1
                 fallback_tier := .TIER_1_DATAFRAME
                 rationale := "Exact match found in glossary DataFrame"
                 domain_match := true
                 language_match := true
                 semantic_type := row.semantic_type })
    ∧ (∀ row rows,
      glossary_df.filter (tier1_exact_pred term domain language) = [] →
      glossary_df.filter (tier1_fuzzy_pred term domain language)
          = row :: rows →
      tier1_dataframe_lookup glossary_df term domain language
        = some { term := term
                 is_valid := true
                 confidence := 0.8
                 fallback_tier := .TIER_1_DATAFRAME
                 rationale := "Partial match found (domain: "
                   ++ pyBool (decide
                     (strLower row.domain = strLower domain))
                   ++ ", language: "
                   ++ pyBool (decide
                     (strLower row.language = strLower language)) ++ ")"
                 domain_match := decide
                   (strLower row.domain = strLower domain)
                 language_match := decide
                   (strLower row.language = strLower language)
                 semantic_type := row.semantic_type })
    ∧ (glossary_df.filter (tier1_fuzzy_pred term domain language) = [] →
      tier1_dataframe_lookup glossary_df term domain language = none
      ∧ validate_term glossary_df pool term domain language context
        = (match tier2_semantic_inference term domain language context with
           | some r2 =>
             if r2.confidence ≥ 0.6 then r2
             else tier3_auto_recommend pool term domain language context
           | none =>
             tier3_auto_recommend pool term domain language context)) := by
  have hexact_imp : ∀ r : GlossaryRow,
      tier1_exact_pred term domain language r = true →
      tier1_fuzzy_pred term domain language r = true := by
    intro r hr
    simp only [tier1_exact_pred, Bool.decide_and, Bool.and_eq_true,
      decide_eq_true_eq] at hr
    simp only [tier1_fuzzy_pred, Bool.decide_and, Bool.decide_or,
      Bool.and_eq_true, Bool.or_eq_true, decide_eq_true_eq]
    exact ⟨hr.1, Or.inl hr.2.1⟩
  refine ⟨?_, ?_, ?_⟩
  · intro row rows h
    have hdf : glossary_df ≠ [] := by
      intro e
      subst e
      simp at h
    simp [tier1_dataframe_lookup, hdf, h]
  · intro row rows hex h
    have hdf : glossary_df ≠ [] := by
      intro e
      subst e
      simp at h
    simp [tier1_dataframe_lookup, hdf, hex, h]
  · intro hfz
    have hex : glossary_df.filter (tier1_exact_pred term domain language)
        = [] := by
      rw [List.filter_eq_nil] at hfz ⊢
      intro r hr hcontra
      exact hfz r hr (hexact_imp r hcontra)
    have htier1 : tier1_dataframe_lookup glossary_df term domain language
        = none := by
      by_cases hdf : glossary_df = []
      · simp [tier1_dataframe_lookup, hdf]
      · simp [tier1_dataframe_lookup, hdf, hex, hfz]
    refine ⟨htier1, ?_⟩
    unfold validate_term
    rw [htier1]

/-- C2 witness: a one-row repository holding ("api", "technology", "en")
gives a tier-1 exact match for term "api" with confidence 1 and both
match flags set. -/
theorem C2_witness :
    tier1_dataframe_lookup [⟨"api", "technology", "en", none⟩]
        "api" "technology" "en"
      = some { term := "api"
               is_valid := true
               confidence := 1
               fallback_tier := .TIER_1_DATAFRAME
               rationale := "Exact match found in glossary DataFrame"
               domain_match := true
               language_match := true
               semantic_type := none } :=
  (C2_tier1_lookup [⟨"api", "technology", "en", none⟩] [] "api"
    "technology" "en" "").1 ⟨"api", "technology", "en", none⟩ []
    (by decide)

/-! ## Tier-3 scan characterization -/

/-- The similarity score is never negative. -/
theorem similarity_score_nonneg (tw sw : List String) :
    0 ≤ similarity_score tw sw := by
  unfold similarity_score
  dsimp only
  split_ifs with h
  · exact le_refl 0
  · positivity

/-- The similarity score never exceeds 1. -/
theorem similarity_score_le_one (tw sw : List String) :
    similarity_score tw sw ≤ 1 := by
  unfold similarity_score
  dsimp only
  split_ifs with h
  · norm_num
  · have htw : tw ≠ [] := by
      intro e
      subst e
      simp at h
    have h1 : (tw.filter (fun w => w ∈ sw)).length ≤ tw.length :=
      List.length_filter_le _ _
    have hpos : 0 < max tw.length sw.length :=
      lt_of_lt_of_le (List.length_pos.2 htw) (le_max_left _ _)
    rw [div_le_one (by exact_mod_cast hpos)]
    exact_mod_cast le_trans h1 (le_max_left _ _)

/-- One step of the tier-3 scan: the running score becomes the maximum
of itself and the candidate's similarity, and either the accumulator is
kept or the candidate is adopted with its own similarity. -/
theorem tier3_step_spec (tw : List String) (acc : Option Suggestion × ℚ)
    (s : Suggestion) (hacc : 0 ≤ acc.2) :
    (tier3_step tw acc s).2 = max acc.2 (suggestion_sim tw s)
    ∧ 0 ≤ (tier3_step tw acc s).2
    ∧ (tier3_step tw acc s = acc
       ∨ ((tier3_step tw acc s).1 = some s
          ∧ (tier3_step tw acc s).2 = suggestion_sim tw s)) := by
  unfold tier3_step suggestion_sim
  dsimp only
  split_ifs with h1 h2
  · refine ⟨(max_eq_right (le_of_lt h2)).symm, le_of_lt
      (lt_of_le_of_lt hacc h2), Or.inr ⟨rfl, rfl⟩⟩
  · exact ⟨(max_eq_left (not_lt.1 h2)).symm, hacc, Or.inl rfl⟩
  · have hsim : similarity_score tw (wordSet (strLower s.term)) = 0 := by
      unfold similarity_score
      dsimp only
      rw [if_pos (not_not.mp h1)]
    rw [hsim]
    exact ⟨(max_eq_left hacc).symm, hacc, Or.inl rfl⟩

/-- The tier-3 scan over a candidate list: the final score is the
left-fold of `max` over the candidates' similarities, it is nonnegative,
and either nothing beat the accumulator or some candidate was adopted
with its own similarity as the final score. -/
theorem tier3_fold_spec (tw : List String) (l : List Suggestion)
    (acc : Option Suggestion × ℚ) (hacc : 0 ≤ acc.2) :
    (l.foldl (tier3_step tw) acc).2
      = l.foldl (fun m s => max m (suggestion_sim tw s)) acc.2
    ∧ 0 ≤ (l.foldl (tier3_step tw) acc).2
    ∧ (l.foldl (tier3_step tw) acc = acc
       ∨ ∃ s ∈ l, (l.foldl (tier3_step tw) acc).1 = some s
          ∧ (l.foldl (tier3_step tw) acc).2 = suggestion_sim tw s) := by
  induction l generalizing acc with
  | nil => exact ⟨rfl, hacc, Or.inl rfl⟩
  | cons s rest ih =>
    obtain ⟨hstep_eq, hstep_nonneg, hstep_cases⟩ :=
      tier3_step_spec tw acc s hacc
    obtain ⟨hrec_eq, hrec_nonneg, hrec_cases⟩ :=
      ih (tier3_step tw acc s) hstep_nonneg
    refine ⟨?_, ?_, ?_⟩
    · rw [List.foldl_cons, hrec_eq, List.foldl_cons, hstep_eq]
    · rw [List.foldl_cons]
      exact hrec_nonneg
    · rcases hrec_cases with hkeep | ⟨t, ht, h1, h2⟩
      · rcases hstep_cases with hkeep2 | ⟨h1, h2⟩
        · exact Or.inl (by rw [List.foldl_cons, hkeep, hkeep2])
        · refine Or.inr ⟨s, List.mem_cons_self s rest, ?_, ?_⟩
          · rw [List.foldl_cons, hkeep]
            exact h1
          · rw [List.foldl_cons, hkeep]
            exact h2
      · refine Or.inr ⟨t, List.mem_cons_of_mem s ht, ?_, ?_⟩
        · rw [List.foldl_cons]
          exact h1
        · rw [List.foldl_cons]
          exact h2

/-- The tier-3 best score lies in `[0, 1]`. -/
theorem tier3_best_bounds (pool : List Suggestion)
    (term domain language : String) :
    0 ≤ (tier3_best pool term domain language).2
    ∧ (tier3_best pool term domain language).2 ≤ 1 := by
  obtain ⟨_, hnn, hcases⟩ := tier3_fold_spec (wordSet (strLower term))
    (tier3_filtered_pool pool domain language) (none, 0) (le_refl 0)
  refine ⟨hnn, ?_⟩
  rcases hcases with hkeep | ⟨s, _, _, h2⟩
  · rw [show tier3_best pool term domain language
      = (tier3_filtered_pool pool domain language).foldl
        (tier3_step (wordSet (strLower term))) (none, 0) from rfl, hkeep]
    norm_num
  · rw [show tier3_best pool term domain language
      = (tier3_filtered_pool pool domain language).foldl
        (tier3_step (wordSet (strLower term))) (none, 0) from rfl, h2]
    exact similarity_score_le_one _ _

/-- C4: tier 3 never validates; when the best candidate score over the
filtered suggestion pool is at least 0.3 the result recommends a
candidate attaining that score with the score as its confidence, and the
best score is exactly the maximum of the candidates' similarities
(shared words over the larger word-set size); otherwise the result has
confidence 0 and no recommendation. -/
theorem C4_tier3_terminal (pool : List Suggestion)
    (term domain language context : String) :
    (tier3_auto_recommend pool term domain language context).is_valid
      = false
    ∧ (tier3_best pool term domain language).2
      = (tier3_filtered_pool pool domain language).foldl
          (fun m s => max m (suggestion_sim (wordSet (strLower term)) s))
          0
    ∧ ((tier3_best pool term domain language).2 ≥ 0.3 →
        ∃ s ∈ tier3_filtered_pool pool domain language,
          suggestion_sim (wordSet (strLower term)) s
            = (tier3_best pool term domain language).2
          ∧ (tier3_auto_recommend pool term domain language
              context).recommended_term = some s.term
          ∧ (tier3_auto_recommend pool term domain language
              context).confidence
            = (tier3_best pool term domain language).2)
    ∧ ((tier3_best pool term domain language).2 < 0.3 →
        (tier3_auto_recommend pool term domain language
          context).confidence = 0
        ∧ (tier3_auto_recommend pool term domain language
          context).recommended_term = none) := by
  obtain ⟨heq, hnn, hcases⟩ := tier3_fold_spec (wordSet (strLower term))
    (tier3_filtered_pool pool domain language) (none, 0) (le_refl 0)
  have hbestdef : tier3_best pool term domain language
      = (tier3_filtered_pool pool domain language).foldl
        (tier3_step (wordSet (strLower term))) (none, 0) := rfl
  refine ⟨?_, ?_, ?_, ?_⟩
  · unfold tier3_auto_recommend
    cases hb : (tier3_best pool term domain language).1 with
    | none => simp [hb, tier3_no_recommendation]
    | some bm =>
      simp only [hb]
      split_ifs <;> simp [tier3_no_recommendation]
  · rw [hbestdef, heq]
  · intro hge
    rcases hcases with hkeep | ⟨s, hs, h1, h2⟩
    · rw [hbestdef, hkeep] at hge
      norm_num at hge
    · refine ⟨s, hs, by rw [hbestdef, h2], ?_, ?_⟩
      · unfold tier3_auto_recommend
        dsimp only
        rw [show (tier3_best pool term domain language).1 = some s
          from by rw [hbestdef]; exact h1]
        dsimp only
        rw [if_pos hge]
      · unfold tier3_auto_recommend
        dsimp only
        rw [show (tier3_best pool term domain language).1 = some s
          from by rw [hbestdef]; exact h1]
        dsimp only
        rw [if_pos hge]
  · intro hlt
    unfold tier3_auto_recommend
    dsimp only
    cases hb : (tier3_best pool term domain language).1 with
    | none => simp [tier3_no_recommendation]
    | some bm =>
      simp only [hb]
      split_ifs with hc
      · exact absurd hc (by simpa using not_le.2 hlt)
      · simp [tier3_no_recommendation]

/-- The best score of a singleton pool holding the query term itself is
1 (used to discharge the C4 witness hypothesis; rational division does
not reduce in the kernel, so the string-level facts are decided first
and the arithmetic is closed numerically). -/
theorem tier3_best_self_one :
    (tier3_best [⟨"api", "technology", "en", none⟩] "api" "technology"
      "en").2 = 1 := by
  have hsim : similarity_score (wordSet (strLower "api"))
      (wordSet (strLower "api")) = 1 := by
    have h2 : wordSet (strLower "api") = ["api"] := by decide
    rw [h2]
    unfold similarity_score
    dsimp only
    rw [if_neg (by decide)]
    rw [show ((["api"] : List String).filter
      (fun w => w ∈ (["api"] : List String))).length = 1 from by decide]
    norm_num
  have e1 : tier3_best [⟨"api", "technology", "en", none⟩] "api"
      "technology" "en"
      = tier3_step (wordSet (strLower "api")) (none, 0)
        ⟨"api", "technology", "en", none⟩ := by
    show List.foldl _ _ (tier3_filtered_pool
      [⟨"api", "technology", "en", none⟩] "technology" "en") = _
    rw [show tier3_filtered_pool [⟨"api", "technology", "en", none⟩]
      "technology" "en" = [⟨"api", "technology", "en", none⟩] from by
        decide]
    rfl
  rw [e1]
  unfold tier3_step
  dsimp only
  rw [if_pos (by decide : (wordSet (strLower "api")).filter
    (fun w => w ∈ wordSet
      (strLower (Suggestion.mk "api" "technology" "en" none).term)) ≠ [])]
  rw [if_pos (by rw [show similarity_score (wordSet (strLower "api"))
    (wordSet (strLower (Suggestion.mk "api" "technology" "en"
      none).term)) = 1 from hsim]; norm_num)]
  exact hsim

/-- C4 witness: for a pool holding the suggestion "api" against the term
"api", the best score is 1 ≥ 0.3 and the result recommends a candidate
attaining it, with the score as its confidence. -/
theorem C4_witness :
    ∃ s ∈ tier3_filtered_pool [⟨"api", "technology", "en", none⟩]
        "technology" "en",
      suggestion_sim (wordSet (strLower "api")) s
        = (tier3_best [⟨"api", "technology", "en", none⟩] "api"
            "technology" "en").2
      ∧ (tier3_auto_recommend [⟨"api", "technology", "en", none⟩]
          "api" "technology" "en" "").recommended_term = some s.term
      ∧ (tier3_auto_recommend [⟨"api", "technology", "en", none⟩]
          "api" "technology" "en" "").confidence
        = (tier3_best [⟨"api", "technology", "en", none⟩] "api"
            "technology" "en").2 :=
  (C4_tier3_terminal [⟨"api", "technology", "en", none⟩] "api"
    "technology" "en" "").2.2.1
    (by rw [tier3_best_self_one]; norm_num)

/-! ## Validator totality and tier monotonicity -/

/-- A tier-1 result has confidence 1 or 0.8 and records tier 1. -/
theorem tier1_result_spec (glossary_df : List GlossaryRow)
    (term domain language : String) (r : TermValidationResult)
    (h : tier1_dataframe_lookup glossary_df term domain language
      = some r) :
    (r.confidence = 1 ∨ r.confidence = 0.8)
    ∧ r.fallback_tier = .TIER_1_DATAFRAME := by
  unfold tier1_dataframe_lookup at h
  split_ifs at h
  cases hex : glossary_df.filter (tier1_exact_pred term domain language)
      with
  | cons row rows =>
    rw [hex] at h
    simp only [Option.some.injEq] at h
    subst h
    exact ⟨Or.inl rfl, rfl⟩
  | nil =>
    rw [hex] at h
    cases hfz : glossary_df.filter
        (tier1_fuzzy_pred term domain language) with
    | cons row rows =>
      rw [hfz] at h
      simp only [Option.some.injEq] at h
      subst h
      exact ⟨Or.inr rfl, rfl⟩
    | nil =>
      rw [hfz] at h
      exact absurd h (by simp)

/-- The semantic-inference confidence lies in `[0.5, 1]`. -/
theorem infer_confidence_bounds (term domain context : String) :
    0.5 ≤ (infer_semantic_type term domain context).confidence
    ∧ (infer_semantic_type term domain context).confidence ≤ 1 := by
  unfold infer_semantic_type
  dsimp only
  set found := semantic_patterns.findSome? (fun tp =>
    if tp.2.any (fun pat =>
        strContains pat (strLower term) ∨ strContains (strLower term) pat)
    then some tp.1 else none) with hfound
  set ck := ((domain_keywords.lookup (strLower domain)).getD []).filter
    (fun kw => strContains kw (strLower context)) with hck
  obtain ⟨hb1, hb2⟩ : (0.5 : ℚ) ≤ (if found.isSome then (0.8 : ℚ)
        else 0.5)
      ∧ (if found.isSome then (0.8 : ℚ) else 0.5) ≤ 1 := by
    split_ifs <;> norm_num
  by_cases h : ck = []
  · rw [if_neg (show ¬ ck ≠ [] from by simp [h])]
    exact ⟨hb1, hb2⟩
  · rw [if_pos h]
    constructor
    · apply le_min
      · have hpos : (0 : ℚ) ≤ (0.1 : ℚ) * ck.length := by positivity
        linarith
      · norm_num
    · exact min_le_right _ _

/-- Tier 2 returns nothing exactly below the 0.6 inference-confidence
threshold; otherwise it returns a result carrying the inference
confidence and tier 2. -/
theorem tier2_result_spec (term domain language context : String) :
    ((infer_semantic_type term domain context).confidence < 0.6 →
      tier2_semantic_inference term domain language context = none)
    ∧ (¬ (infer_semantic_type term domain context).confidence < 0.6 →
      ∃ r2, tier2_semantic_inference term domain language context
          = some r2
        ∧ r2.confidence = (infer_semantic_type term domain
            context).confidence
        ∧ r2.fallback_tier = .TIER_2_SEMANTIC) := by
  constructor
  · intro h
    unfold tier2_semantic_inference
    rw [if_pos h]
  · intro h
    unfold tier2_semantic_inference
    rw [if_neg h]
    dsimp only
    exact ⟨_, rfl, rfl, rfl⟩

/-- The tier-3 result has confidence in `[0, 1]` and records tier 3. -/
theorem tier3_result_spec (pool : List Suggestion)
    (term domain language context : String) :
    0 ≤ (tier3_auto_recommend pool term domain language context).confidence
    ∧ (tier3_auto_recommend pool term domain language context).confidence
      ≤ 1
    ∧ (tier3_auto_recommend pool term domain language
        context).fallback_tier = .TIER_3_AUTO_RECOMMEND := by
  obtain ⟨hnn, hle⟩ := tier3_best_bounds pool term domain language
  unfold tier3_auto_recommend
  dsimp only
  cases hb : (tier3_best pool term domain language).1 with
  | none => simp [tier3_no_recommendation]
  | some bm =>
    dsimp only
    split_ifs with hc
    · exact ⟨hnn, hle, rfl⟩
    · simp [tier3_no_recommendation]

/-- C8: `validate_term` is total (the embedding is a total function);
its confidence always lies in `[0, 1]`, and the recorded tier is the
lowest accepting one — tier 1 whenever the repository lookup matches,
else tier 2 whenever the semantic-inference confidence is at least 0.6,
else tier 3. -/
theorem C8_validate_term_bounds_and_tier (glossary_df : List GlossaryRow)
    (pool : List Suggestion) (term domain language context : String) :
    0 ≤ (validate_term glossary_df pool term domain language
      context).confidence
    ∧ (validate_term glossary_df pool term domain language
        context).confidence ≤ 1
    ∧ (∀ r, tier1_dataframe_lookup glossary_df term domain language
        = some r →
        validate_term glossary_df pool term domain language context = r
        ∧ r.fallback_tier = .TIER_1_DATAFRAME)
    ∧ (tier1_dataframe_lookup glossary_df term domain language = none →
        0.6 ≤ (infer_semantic_type term domain context).confidence →
        (validate_term glossary_df pool term domain language
          context).fallback_tier = .TIER_2_SEMANTIC)
    ∧ (tier1_dataframe_lookup glossary_df term domain language = none →
        (infer_semantic_type term domain context).confidence < 0.6 →
        (validate_term glossary_df pool term domain language
          context).fallback_tier = .TIER_3_AUTO_RECOMMEND) := by
  obtain ⟨ht2none, ht2some⟩ := tier2_result_spec term domain language
    context
  obtain ⟨ht3nn, ht3le, ht3tier⟩ := tier3_result_spec pool term domain
    language context
  cases h1 : tier1_dataframe_lookup glossary_df term domain language with
  | some r =>
    obtain ⟨hconf, htier⟩ := tier1_result_spec glossary_df term domain
      language r h1
    have hv : validate_term glossary_df pool term domain language context
        = r := by
      unfold validate_term
      rw [h1]
    refine ⟨?_, ?_, ?_, ?_, ?_⟩
    · rw [hv]
      rcases hconf with h | h <;> rw [h] <;> norm_num
    · rw [hv]
      rcases hconf with h | h <;> rw [h] <;> norm_num
    · intro r' hr'
      simp only [Option.some.injEq] at hr'
      subst hr'
      exact ⟨hv, htier⟩
    · intro hcontra
      exact absurd hcontra (by simp)
    · intro hcontra
      exact absurd hcontra (by simp)
  | none =>
    by_cases hlt : (infer_semantic_type term domain context).confidence
        < 0.6
    · have hv : validate_term glossary_df pool term domain language
          context = tier3_auto_recommend pool term domain language
          context := by
        unfold validate_term
        rw [h1, ht2none hlt]
      refine ⟨?_, ?_, ?_, ?_, ?_⟩
      · rw [hv]; exact ht3nn
      · rw [hv]; exact ht3le
      · intro r' hr'
        exact absurd hr' (by simp)
      · intro _ hge
        exact absurd hlt (not_lt.2 hge)
      · intro _ _
        rw [hv]
        exact ht3tier
    · obtain ⟨r2, hsome, hconf2, htier2⟩ := ht2some hlt
      obtain ⟨hinf_lo, hinf_hi⟩ := infer_confidence_bounds term domain
        context
      have hge6 : r2.confidence ≥ 0.6 := by
        rw [hconf2]
        exact not_lt.1 hlt
      have hv : validate_term glossary_df pool term domain language
          context = r2 := by
        unfold validate_term
        rw [h1, hsome]
        dsimp only
        rw [if_pos hge6]
      refine ⟨?_, ?_, ?_, ?_, ?_⟩
      · rw [hv, hconf2]
        linarith
      · rw [hv, hconf2]
        exact hinf_hi
      · intro r' hr'
        exact absurd hr' (by simp)
      · intro _ _
        rw [hv]
        exact htier2
      · intro _ hcontra
        exact absurd hcontra hlt

/-- C8 witness: with an empty repository and pool, the term "api" in
domain "technology" with empty context reaches tier 3 (its
semantic-inference confidence is 0.5 < 0.6). -/
theorem C8_witness :
    (validate_term [] [] "api" "technology" "en" "").fallback_tier
      = .TIER_3_AUTO_RECOMMEND := by
  have hconf : (infer_semantic_type "api" "technology" "").confidence
      = 0.5 := by
    unfold infer_semantic_type
    dsimp only
    rw [show (semantic_patterns.findSome? (fun tp =>
      if tp.2.any (fun pat =>
          strContains pat (strLower "api")
          ∨ strContains (strLower "api") pat)
      then some tp.1 else none)) = none from by decide]
    rw [show ((domain_keywords.lookup (strLower "technology")).getD
      []).filter (fun kw => strContains kw (strLower "")) = [] from by
        decide]
    simp
  exact (C8_validate_term_bounds_and_tier [] [] "api" "technology" "en"
    "").2.2.2.2 rfl (by rw [hconf]; norm_num)

/-! ## HotMatchService
(hot_match_service.py lines 13-279) -/

/-- A selection record as returned by the external selection store (the
fields the percentage computations consult). -/
structure SelectionRecord where
  user_id : String := ""
  selected_term : String := ""
deriving DecidableEq, Repr

/-- `generate_base_term_hash`: md5 of the lowercased base term and
domain, embedded as the fingerprinted content itself. -/
def generate_base_term_hash (base_term domain : String) : String :=
  strLower base_term ++ strLower domain

/-- `_get_mock_percentage`: the hard-coded demo table, 0 for terms not
in it. -/
def mock_percentages : List (String × ℚ) :=
  [("implementation", 75), ("deployment", 15), ("rollout", 8),
   ("integration", 2), ("treatment", 82), ("therapy", 12),
   ("intervention", 4), ("management", 2)]

/-- `_get_mock_percentage`. -/
def get_mock_percentage (term : String) : ℚ :=
  (mock_percentages.lookup (strLower term)).getD 0

/-- `_calculate_hot_match_percentage`: `supabase` is the configured
store client's response for the group (`none` when no client is
configured). -/
def calculate_hot_match_percentage
    (supabase : Option (List SelectionRecord)) (term : String) : ℚ :=
  match supabase with
  | none => get_mock_percentage term
  | some selections_data =>
    if selections_data = [] then 0
    else
      let total_selections := selections_data.length
      let term_selections := (selections_data.filter (fun s =>
        strLower s.selected_term = strLower term)).length
      if total_selections > 0 then
        (term_selections : ℚ) / total_selections * 100
      else 0

/-- `get_hot_match_percentage`: `cached` is the value the configured
cache service returns for the key `hot_match:{hash}:{term.lower()}`
(`none` when no cache service is configured or the key is absent). -/
def get_hot_match_percentage (supabase : Option (List SelectionRecord))
    (cached : Option ℚ) (term : String) : ℚ :=
  match cached with
  | some v => v
  | none => calculate_hot_match_percentage supabase term

/-- Increment the count of one lowercased term (Python dict
`term_counts[term] = term_counts.get(term, 0) + 1`, insertion order
preserved). -/
def bump_count (l : List (String × Nat)) (t : String) :
    List (String × Nat) :=
  match l with
  | [] => [(t, 1)]
  | (u, c) :: rest =>
    if u = t then (u, c + 1) :: rest else (u, c) :: bump_count rest t

/-- One step of the `term_counts` loop of
`_update_hot_match_percentages`: empty lowercased terms are skipped. -/
def count_step (acc : List (String × Nat)) (s : SelectionRecord) :
    List (String × Nat) :=
  let t := strLower s.selected_term
  if t = "" then acc else bump_count acc t

/-- The `term_counts` dictionary of `_update_hot_match_percentages`. -/
def term_counts (selections_data : List SelectionRecord) :
    List (String × Nat) :=
  selections_data.foldl count_step []

/-- `_update_hot_match_percentages` applied to the store's records for a
group: the per-term cache entries written (keyed by lowercased term); an
empty record list writes nothing. -/
def update_hot_match_percentages
    (selections_data : List SelectionRecord) : List (String × ℚ) :=
  if selections_data = [] then []
  else (term_counts selections_data).map (fun tc =>
    (tc.1, (tc.2 : ℚ) / selections_data.length * 100))

/-- `record_user_selection`: append the selection to the external store
and recompute the group's percentage cache from the store's records. -/
def record_user_selection (store : List SelectionRecord)
    (sel : SelectionRecord) :
    List SelectionRecord × List (String × ℚ) :=
  (store ++ [sel], update_hot_match_percentages (store ++ [sel]))

/-- `get_all_percentages_for_group`: the per-term fan-out of
`get_hot_match_percentage` over a group's percentage cache. -/
def get_all_percentages_for_group
    (supabase : Option (List SelectionRecord))
    (cache : List (String × ℚ)) (terms : List String) :
    List (String × ℚ) :=
  terms.map (fun term =>
    (term, get_hot_match_percentage supabase
      (cache.lookup (strLower term)) term))

/-! ## Percentage-cache characterization -/

/-- Bumping a term makes its looked-up count one more than before. -/
theorem bump_lookup_self (l : List (String × Nat)) (t : String) :
    (bump_count l t).lookup t = some (((l.lookup t).getD 0) + 1) := by
  induction l with
  | nil => simp [bump_count, List.lookup]
  | cons p rest ih =>
    obtain ⟨u, c⟩ := p
    by_cases h : u = t
    · subst h
      simp [bump_count, List.lookup]
    · simp only [bump_count, if_neg h, List.lookup]
      have : (t == u) = false := by
        simp [beq_iff_eq]
        exact fun e => h e.symm
      simp [this, ih]

/-- Bumping a term leaves other terms' counts unchanged. -/
theorem bump_lookup_ne (l : List (String × Nat)) (t u : String)
    (h : u ≠ t) : (bump_count l t).lookup u = l.lookup u := by
  induction l with
  | nil =>
    have hbeq : (u == t) = false := by
      simp only [beq_eq_false_iff_ne, ne_eq]
      exact h
    simp [bump_count, List.lookup, hbeq]
  | cons p rest ih =>
    obtain ⟨k, c⟩ := p
    by_cases hk : k = t
    · subst hk
      have : (u == k) = false := by
        simp [beq_iff_eq]
        exact h
      simp [bump_count, List.lookup, this]
    · simp only [bump_count, if_neg hk, List.lookup]
      cases hbeq : (u == k) with
      | true => rfl
      | false => exact ih

/-- The looked-up count after the counting fold equals the prior count
plus the number of selections whose lowercased term is the (non-empty)
key. -/
theorem foldl_count_lookup (sels : List SelectionRecord) :
    ∀ (acc : List (String × Nat)) (u : String), u ≠ "" →
    (((sels.foldl count_step acc).lookup u).getD 0)
      = ((acc.lookup u).getD 0)
        + sels.countP (fun s => strLower s.selected_term = u) := by
  induction sels with
  | nil =>
    intro acc u hu
    simp
  | cons s rest ih =>
    intro acc u hu
    rw [List.foldl_cons, ih _ u hu]
    unfold count_step
    by_cases h : strLower s.selected_term = ""
    · rw [if_pos h]
      have hne : ¬ (strLower s.selected_term = u) := by
        rw [h]
        exact fun e => hu e.symm
      simp [List.countP_cons, hne]
    · rw [if_neg h]
      by_cases he : strLower s.selected_term = u
      · rw [he, bump_lookup_self]
        simp [List.countP_cons, he]
        omega
      · rw [bump_lookup_ne acc (strLower s.selected_term) u
          (fun e => he e.symm)]
        simp [List.countP_cons, he]

/-- The counting fold never creates an empty-string key. -/
theorem foldl_count_empty_key (sels : List SelectionRecord) :
    ∀ (acc : List (String × Nat)), acc.lookup "" = none →
    ((sels.foldl count_step acc).lookup "") = none := by
  induction sels with
  | nil =>
    intro acc hacc
    simpa using hacc
  | cons s rest ih =>
    intro acc hacc
    rw [List.foldl_cons]
    apply ih
    unfold count_step
    by_cases h : strLower s.selected_term = ""
    · rw [if_pos h]
      exact hacc
    · rw [if_neg h, bump_lookup_ne acc (strLower s.selected_term) ""
        (fun e => h e.symm)]
      exact hacc

/-- Looking up in the percentage-mapped association list. -/
theorem lookup_map_value (l : List (String × Nat)) (N : ℚ)
    (u : String) :
    (l.map (fun tc => (tc.1, (tc.2 : ℚ) / N * 100))).lookup u
      = (l.lookup u).map (fun c => (c : ℚ) / N * 100) := by
  induction l with
  | nil => simp
  | cons p rest ih =>
    obtain ⟨k, c⟩ := p
    simp only [List.map_cons, List.lookup]
    cases hbeq : (u == k) with
    | true => rfl
    | false => exact ih

/-- Bumping a term increases the total count by one. -/
theorem bump_sum (l : List (String × Nat)) (t : String) :
    ((bump_count l t).map Prod.snd).sum = ((l.map Prod.snd).sum) + 1 := by
  induction l with
  | nil => simp [bump_count]
  | cons p rest ih =>
    obtain ⟨k, c⟩ := p
    by_cases hk : k = t
    · subst hk
      simp [bump_count]
      omega
    · simp [bump_count, hk, ih]
      omega

/-- The total of the counts equals the number of selections with a
non-empty lowercased term. -/
theorem foldl_count_sum (sels : List SelectionRecord) :
    ∀ (acc : List (String × Nat)),
    ((sels.foldl count_step acc).map Prod.snd).sum
      = ((acc.map Prod.snd).sum)
        + sels.countP (fun s => strLower s.selected_term ≠ "") := by
  induction sels with
  | nil =>
    intro acc
    simp
  | cons s rest ih =>
    intro acc
    rw [List.foldl_cons, ih]
    unfold count_step
    by_cases h : strLower s.selected_term = ""
    · rw [if_pos h]
      simp [List.countP_cons, h]
    · rw [if_neg h, bump_sum]
      simp [List.countP_cons, h]
      omega

/-- Summing the per-term percentages factors through the total count. -/
theorem sum_counts_q (l : List (String × Nat)) (N : ℚ) :
    ((l.map (fun tc => (tc.1, (tc.2 : ℚ) / N * 100))).map Prod.snd).sum
      = ((l.map Prod.snd).sum : ℚ) / N * 100 := by
  induction l with
  | nil => simp
  | cons p rest ih =>
    simp only [List.map_cons, List.sum_cons, ih]
    push_cast
    ring

/-- The percentage served for any term after a recompute over a
non-empty record list is the case-insensitive selection share times 100,
whether it comes from the freshly written cache entry or from the
fallback recomputation; and with no empty selected terms the written
entries sum to exactly 100. -/
theorem percentages_spec (sels : List SelectionRecord)
    (hne : sels ≠ []) :
    (∀ t, get_hot_match_percentage (some sels)
        ((update_hot_match_percentages sels).lookup (strLower t)) t
      = (sels.countP (fun s =>
          strLower s.selected_term = strLower t) : ℚ)
        / sels.length * 100)
    ∧ ((∀ s ∈ sels, strLower s.selected_term ≠ "") →
       ((update_hot_match_percentages sels).map Prod.snd).sum = 100) := by
  have hupd : update_hot_match_percentages sels
      = (term_counts sels).map (fun tc =>
        (tc.1, (tc.2 : ℚ) / sels.length * 100)) := by
    unfold update_hot_match_percentages
    rw [if_neg hne]
  constructor
  · intro t
    rw [hupd, lookup_map_value]
    cases hl : (term_counts sels).lookup (strLower t) with
    | none =>
      show calculate_hot_match_percentage (some sels) t = _
      unfold calculate_hot_match_percentage
      dsimp only
      rw [if_neg hne, if_pos (List.length_pos.2 hne),
        List.countP_eq_length_filter]
    | some c =>
      by_cases ht : strLower t = ""
      · rw [ht] at hl
        have : (term_counts sels).lookup "" = none :=
          foldl_count_empty_key sels [] rfl
        rw [this] at hl
        exact absurd hl (by simp)
      · have hc := foldl_count_lookup sels [] (strLower t) ht
        rw [show (sels.foldl count_step []) = term_counts sels from rfl,
          hl] at hc
        simp only [Option.getD_some, List.lookup_nil, Option.getD_none,
          Nat.zero_add] at hc
        show (c : ℚ) / sels.length * 100 = _
        rw [hc]
  · intro hall
    rw [hupd, sum_counts_q]
    have hsum : ((term_counts sels).map Prod.snd).sum
        = sels.countP (fun s => strLower s.selected_term ≠ "") := by
      have := foldl_count_sum sels []
      simpa using this
    have hcnt : sels.countP (fun s => strLower s.selected_term ≠ "")
        = sels.length := by
      rw [List.countP_eq_length]
      intro s hs
      simpa using hall s hs
    rw [hsum, hcnt]
    have hlen : (sels.length : ℚ) ≠ 0 := by
      have : 0 < sels.length := List.length_pos.2 hne
      positivity
    field_simp

/-- C5 counterexample: after recording the selections ("Api", "api") the
recomputed cache holds 100 for the key "api", so looking up the distinct
selected term "Api" (lowercased by the lookup path) returns 100, while
the claim's strict count of selections with `selected_term == "Api"`
gives 1 of 2, i.e. 50. -/
theorem C5_counterexample :
    (update_hot_match_percentages
        [⟨"u1", "Api"⟩, ⟨"u2", "api"⟩]).lookup (strLower "Api")
      = some 100
    ∧ ((([⟨"u1", "Api"⟩, ⟨"u2", "api"⟩] : List SelectionRecord).countP
        (fun s => s.selected_term = "Api") : ℚ) / 2 * 100) = 50
    ∧ (100 : ℚ) ≠ 50 := by
  refine ⟨?_, ?_, by norm_num⟩
  · have h1 : term_counts [⟨"u1", "Api"⟩, ⟨"u2", "api"⟩]
        = [("api", 2)] := by decide
    unfold update_hot_match_percentages
    rw [if_neg (by decide), h1]
    rw [show strLower "Api" = "api" from by decide]
    simp only [List.map_cons, List.map_nil, List.lookup]
    rw [show ("api" == "api") = true from by decide]
    norm_num
  · rw [show (([⟨"u1", "Api"⟩, ⟨"u2", "api"⟩]
      : List SelectionRecord).countP
      (fun s => s.selected_term = "Api")) = 1 from by decide]
    norm_num

/-- C5 amended: after `record_user_selection` recomputes a group's
percentage cache from the store's N > 0 records, the percentage served
for any term equals the count of selections whose lowercased selected
term equals the lowercased queried term, divided by N, times 100 (the
recompute groups case-insensitively, so distinct case variants of a term
share one cached percentage); when every recorded selected term is
non-empty, the cached percentages sum to exactly 100 as rationals. -/
theorem C5_percentages_amended (store : List SelectionRecord)
    (sel : SelectionRecord) :
    (∀ t, get_hot_match_percentage
        (some (record_user_selection store sel).1)
        (((record_user_selection store sel).2).lookup (strLower t)) t
      = ((record_user_selection store sel).1.countP (fun s =>
          strLower s.selected_term = strLower t) : ℚ)
        / (record_user_selection store sel).1.length * 100)
    ∧ ((∀ s ∈ (record_user_selection store sel).1,
          strLower s.selected_term ≠ "") →
       (((record_user_selection store sel).2).map Prod.snd).sum
         = 100) := by
  unfold record_user_selection
  dsimp only
  exact percentages_spec (store ++ [sel]) (by simp)

/-- C5 amended witness: for recorded selections [alpha, alpha, beta],
the served percentages over [alpha, beta] are 200/3 and 100/3, which sum
to exactly 100 and are within 0.01 of 66.67 and 33.33. -/
theorem C5_witness :
    get_all_percentages_for_group
        (some (record_user_selection [⟨"u1", "alpha"⟩, ⟨"u2", "alpha"⟩]
          ⟨"u3", "beta"⟩).1)
        ((record_user_selection [⟨"u1", "alpha"⟩, ⟨"u2", "alpha"⟩]
          ⟨"u3", "beta"⟩).2)
        ["alpha", "beta"]
      = [("alpha", 200/3), ("beta", 100/3)]
    ∧ (200/3 : ℚ) + 100/3 = 100
    ∧ |(200/3 : ℚ) - 66.67| ≤ 0.01
    ∧ |(100/3 : ℚ) - 33.33| ≤ 0.01 := by
  have h := (C5_percentages_amended [⟨"u1", "alpha"⟩, ⟨"u2", "alpha"⟩]
    ⟨"u3", "beta"⟩).1
  refine ⟨?_, by norm_num, by rw [abs_le]; constructor <;> norm_num,
    by rw [abs_le]; constructor <;> norm_num⟩
  unfold get_all_percentages_for_group
  rw [List.map_cons, List.map_cons, List.map_nil, h "alpha", h "beta"]
  rw [show ((record_user_selection [⟨"u1", "alpha"⟩, ⟨"u2", "alpha"⟩]
      ⟨"u3", "beta"⟩).1.countP (fun s =>
        strLower s.selected_term = strLower "alpha")) = 2 from by decide]
  rw [show ((record_user_selection [⟨"u1", "alpha"⟩, ⟨"u2", "alpha"⟩]
      ⟨"u3", "beta"⟩).1.countP (fun s =>
        strLower s.selected_term = strLower "beta")) = 1 from by decide]
  rw [show (record_user_selection [⟨"u1", "alpha"⟩, ⟨"u2", "alpha"⟩]
      ⟨"u3", "beta"⟩).1.length = 3 from by decide]
  norm_num

/-- C6 counterexample: with no store client configured and no cached
value, the percentage for "implementation" is the mock value 75, not
zero. -/
theorem C6_counterexample :
    get_hot_match_percentage none none "implementation" = 75
    ∧ (75 : ℚ) ≠ 0 := by
  constructor
  · rfl
  · norm_num

/-- C6 amended: with no cached value, a missing store client makes
`get_hot_match_percentage` return the hard-coded mock-table value — zero
exactly for terms outside the table; a configured store client whose
store holds no selections for the group yields zero. -/
theorem C6_store_unavailable_amended (term : String) :
    get_hot_match_percentage none none term = get_mock_percentage term
    ∧ get_hot_match_percentage (some []) none term = 0
    ∧ (mock_percentages.lookup (strLower term) = none →
        get_hot_match_percentage none none term = 0) := by
  refine ⟨rfl, rfl, ?_⟩
  intro h
  show get_mock_percentage term = 0
  unfold get_mock_percentage
  rw [h]
  rfl

/-- C6 amended witness: the term "alpha" is outside the mock table, so
with no store client and no cached value its percentage is zero. -/
theorem C6_witness :
    get_hot_match_percentage none none "alpha" = 0 :=
  (C6_store_unavailable_amended "alpha").2.2 rfl

/-! ## HotMatchDetector
(hot_match_detector.py lines 11-239) -/

/-- An analyzed-term record (the `text` field the detector reads). -/
structure AnalyzedTerm where
  text : String := ""
deriving DecidableEq, Repr

/-- `InterchangeableMatch` dataclass. -/
structure InterchangeableMatch where
  base_term : String
  detected_term : String
  alternatives : List String
  context : String
  confidence : ℚ
  domain : String
deriving DecidableEq, Repr

/-- `self.interchangeable_patterns` (insertion order preserved at both
levels). -/
def interchangeable_patterns :
    List (String × List (String × List String)) :=
  [("technology",
    [("implementation", ["deployment", "rollout", "integration",
      "execution"]),
     ("framework", ["architecture", "structure", "scaffold", "platform"]),
     ("validation", ["verification", "authentication", "certification",
      "confirmation"]),
     ("configuration", ["setup", "settings", "parameters", "options"]),
     ("optimization", ["enhancement", "improvement", "refinement",
      "tuning"]),
     ("interface", ["UI", "user interface", "frontend", "GUI"]),
     ("database", ["data store", "repository", "storage", "datastore"]),
     ("authentication", ["login", "sign-in", "authorization",
      "access control"]),
     ("endpoint", ["API", "service", "route", "resource"]),
     ("module", ["component", "package", "library", "plugin"])]),
   ("medical",
    [("treatment", ["therapy", "intervention", "management", "care"]),
     ("diagnosis", ["assessment", "evaluation", "identification",
      "examination"]),
     ("medication", ["drug", "pharmaceutical", "medicine",
      "prescription"]),
     ("procedure", ["operation", "surgery", "intervention", "technique"]),
     ("symptom", ["sign", "indication", "manifestation", "presentation"]),
     ("patient", ["individual", "subject", "case", "client"]),
     ("physician", ["doctor", "clinician", "practitioner",
      "medical professional"]),
     ("examination", ["checkup", "assessment", "evaluation",
      "screening"])]),
   ("legal",
    [("contract", ["agreement", "covenant", "pact", "arrangement"]),
     ("litigation", ["lawsuit", "legal action", "proceedings", "case"]),
     ("compliance", ["adherence", "conformity", "observance",
      "accordance"]),
     ("regulation", ["rule", "law", "statute", "ordinance"]),
     ("liability", ["responsibility", "accountability", "obligation",
      "duty"]),
     ("jurisdiction", ["authority", "domain", "territory", "purview"]),
     ("plaintiff", ["claimant", "complainant", "petitioner", "litigant"]),
     ("defendant", ["respondent", "accused", "party"])]),
   ("finance",
    [("investment", ["capital allocation", "funding", "stake",
      "portfolio"]),
     ("revenue", ["income", "earnings", "proceeds", "receipts"]),
     ("expenditure", ["expense", "cost", "outlay", "spending"]),
     ("profit", ["gain", "return", "earnings", "surplus"]),
     ("asset", ["holding", "property", "resource", "capital"]),
     ("liability", ["debt", "obligation", "commitment", "payable"]),
     ("transaction", ["deal", "trade", "exchange", "operation"]),
     ("portfolio", ["holdings", "investments", "assets", "collection"])]),
   ("marketing",
    [("campaign", ["initiative", "program", "effort", "drive"]),
     ("engagement", ["interaction", "involvement", "participation",
      "activity"]),
     ("conversion", ["acquisition", "sale", "signup", "registration"]),
     ("audience", ["market", "demographic", "target group", "consumers"]),
     ("brand", ["trademark", "identity", "label", "name"]),
     ("content", ["material", "copy", "messaging", "collateral"]),
     ("strategy", ["plan", "approach", "tactic", "methodology"])]),
   ("general",
    [("utilize", ["use", "employ", "apply", "leverage"]),
     ("facilitate", ["enable", "support", "assist", "help"]),
     ("implement", ["execute", "deploy", "apply", "carry out"]),
     ("optimize", ["improve", "enhance", "refine", "perfect"]),
     ("analyze", ["examine", "study", "evaluate", "assess"]),
     ("demonstrate", ["show", "illustrate", "display", "exhibit"]),
     ("establish", ["create", "set up", "form", "institute"]),
     ("maintain", ["preserve", "sustain", "keep", "uphold"])])]

/-- The detector's `_extract_context`: a window around the first
case-insensitive occurrence of the term, the first 100 characters when
the term is absent. -/
def detector_extract_context (full_text term : String) (window : Nat) :
    String :=
  match strFind (strLower term) (strLower full_text) with
  | none => strTake full_text 100
  | some pos =>
    let start := pos - window
    let stop := min (strLen full_text) (pos + strLen term + window)
    let context := strSlice full_text start stop
    let context := if start > 0 then "..." ++ context else context
    if stop < strLen full_text then context ++ "..." else context

/-- The matches one analyzed term contributes against one pattern table
(the inner loop of `_check_domain_patterns` with its per-term `break`):
only the first group containing the term fires; confidence is 0.9 when
the term equals that group's base term, else 0.8; the detected term is
removed from the emitted alternatives, and a group left with no
alternatives emits nothing. -/
def term_pattern_match (patterns : List (String × List String))
    (domain context : String) (term_data : AnalyzedTerm) :
    List InterchangeableMatch :=
  let term_text := strTrim (strLower term_data.text)
  if term_text = "" then []
  else
    match patterns.find? (fun g =>
      (g.1 :: g.2).any (fun x => strLower x = term_text)) with
    | none => []
    | some g =>
      let term_context := detector_extract_context context term_text 50
      let confidence : ℚ :=
        if term_text = strLower g.1 then 0.9 else 0.8
      let filtered_alternatives :=
        g.2.filter (fun alt => strLower alt ≠ term_text)
      if filtered_alternatives ≠ [] then
        [{ base_term := g.1
           detected_term := term_text
           alternatives := filtered_alternatives
           context := term_context
           confidence := confidence
           domain := domain }]
      else []

/-- `_check_domain_patterns`. -/
def check_domain_patterns (domain : String)
    (analyzed_terms : List AnalyzedTerm) (context : String) :
    List InterchangeableMatch :=
  let patterns := (interchangeable_patterns.lookup domain).getD []
  analyzed_terms.flatMap (term_pattern_match patterns domain context)

/-- `detect_interchangeable_terms` (the `language` argument is unused by
the source as well). -/
def detect_interchangeable_terms (analyzed_terms : List AnalyzedTerm)
    (domain context language : String) : List InterchangeableMatch :=
  (if (interchangeable_patterns.lookup (strLower domain)).isSome then
    check_domain_patterns (strLower domain) analyzed_terms context
  else [])
  ++ (if strLower domain ≠ "general" then
    check_domain_patterns "general" analyzed_terms context
  else [])

/-- C9 counterexample: the analyzed term "authentication" equals the base
term of the technology group "authentication", yet the detector emits a
single match of confidence 0.8 for the group "validation" (where
"authentication" occurs earlier as an alternative) and no match of
confidence 0.9 at all. -/
theorem C9_counterexample :
    detect_interchangeable_terms [⟨"authentication"⟩] "technology" ""
        "en"
      = [⟨"validation", "authentication",
          ["verification", "certification", "confirmation"], "", 0.8,
          "technology"⟩]
    ∧ ("authentication",
        ["login", "sign-in", "authorization", "access control"])
        ∈ (interchangeable_patterns.lookup "technology").getD []
    ∧ ∀ m ∈ detect_interchangeable_terms [⟨"authentication"⟩]
        "technology" "" "en", m.confidence ≠ 0.9 := by
  refine ⟨rfl, by decide, ?_⟩
  intro m hm
  rw [show detect_interchangeable_terms [⟨"authentication"⟩]
      "technology" "" "en"
    = [⟨"validation", "authentication",
        ["verification", "certification", "confirmation"], "", 0.8,
        "technology"⟩] from rfl] at hm
  simp only [List.mem_singleton] at hm
  subst hm
  show (0.8 : ℚ) ≠ 0.9
  norm_num

/-- C9 amended: the detector scans each pattern table term-wise; for an
analyzed term (lowercased and trimmed, non-empty), only the first group
whose base term or alternatives case-insensitively contain it fires,
emitting one match with confidence 0.9 when the term equals that group's
base term and 0.8 otherwise, whose alternatives are the group's
alternatives minus the detected term; a first-matching group with no
remaining alternatives emits nothing, and a term contained in no group
emits nothing; the detector runs the domain table (when present) and
then the general table. -/
theorem C9_detector_amended (analyzed_terms : List AnalyzedTerm)
    (domain context language : String) (td : AnalyzedTerm) :
    detect_interchangeable_terms analyzed_terms domain context language
      = (if (interchangeable_patterns.lookup (strLower domain)).isSome
         then check_domain_patterns (strLower domain) analyzed_terms
           context
         else [])
        ++ (if strLower domain ≠ "general" then
          check_domain_patterns "general" analyzed_terms context
        else [])
    ∧ (∀ patterns : List (String × List String),
        check_domain_patterns domain analyzed_terms context
          = analyzed_terms.flatMap (term_pattern_match
            ((interchangeable_patterns.lookup domain).getD []) domain
            context)
        ∧ (patterns.find? (fun g => (g.1 :: g.2).any (fun x =>
            strLower x = strTrim (strLower td.text))) = none →
          term_pattern_match patterns domain context td = [])
        ∧ ∀ g, strTrim (strLower td.text) ≠ "" →
          patterns.find? (fun g' => (g'.1 :: g'.2).any (fun x =>
            strLower x = strTrim (strLower td.text))) = some g →
          term_pattern_match patterns domain context td
            = (if g.2.filter (fun alt =>
                strLower alt ≠ strTrim (strLower td.text)) ≠ []
               then [⟨g.1, strTrim (strLower td.text),
                 g.2.filter (fun alt =>
                   strLower alt ≠ strTrim (strLower td.text)),
                 detector_extract_context context
                   (strTrim (strLower td.text)) 50,
                 (if strTrim (strLower td.text) = strLower g.1
                  then 0.9 else 0.8), domain⟩]
               else [])) := by
  refine ⟨rfl, ?_⟩
  intro patterns
  refine ⟨rfl, ?_, ?_⟩
  · intro hnone
    unfold term_pattern_match
    dsimp only
    by_cases ht : strTrim (strLower td.text) = ""
    · rw [if_pos ht]
    · rw [if_neg ht, hnone]
  · intro g ht hsome
    unfold term_pattern_match
    dsimp only
    rw [if_neg ht, hsome]

/-- C9 amended witness: the term "implementation" in domain "technology"
is first matched by the group "implementation" itself, yielding one
match with confidence 0.9 and alternatives
[deployment, rollout, integration, execution]. -/
theorem C9_witness :
    term_pattern_match
        ((interchangeable_patterns.lookup "technology").getD [])
        "technology" "" ⟨"implementation"⟩
      = [⟨"implementation", "implementation",
          ["deployment", "rollout", "integration", "execution"], "",
          0.9, "technology"⟩] := by
  have h := ((C9_detector_amended [] "technology" "" "en"
    ⟨"implementation"⟩).2
    ((interchangeable_patterns.lookup "technology").getD [])).2.2
    ("implementation",
      ["deployment", "rollout", "integration", "execution"])
    (by decide) (by decide)
  rw [h]
  rfl
